import Mathlib

/-!
Shallow embedding of the PROJ database schema (data/sql/proj_db_table_defs.sql).

Each SQL table becomes a Lean structure whose fields mirror the table columns
(`TEXT NOT NULL` becomes `String`, nullable `TEXT` becomes `Option String`,
`FLOAT` becomes `Rat` or `Option Rat`, `BOOLEAN` becomes `Bool`).  The whole
database is a `Store` of lists, one per table.  Each `BEFORE INSERT` trigger
becomes an insert function that evaluates the RAISE(ABORT, ...) rules of the trigger
conditions in source order (SQL three-valued logic is reproduced: a comparison
against a NULL scalar subquery result never fires a rule), then the declared
CHECK / PRIMARY KEY / FOREIGN KEY constraints, and finally appends the row.
-/

structure UnitOfMeasure where
  auth_name : String
  code : String
  name : String
  type : String
  conv_factor : Option Rat
  deprecated : Bool
deriving DecidableEq, Repr

structure CelestialBody where
  auth_name : String
  code : String
  name : String
  semi_major_axis : Rat
deriving DecidableEq, Repr

structure Ellipsoid where
  auth_name : String
  code : String
  name : String
  description : Option String
  celestial_body_auth_name : String
  celestial_body_code : String
  semi_major_axis : Rat
  uom_auth_name : String
  uom_code : String
  inv_flattening : Option Rat
  semi_minor_axis : Option Rat
  deprecated : Bool
deriving DecidableEq, Repr

structure Area where
  auth_name : String
  code : String
  name : String
  description : String
  south_lat : Option Rat
  north_lat : Option Rat
  west_lon : Option Rat
  east_lon : Option Rat
  deprecated : Bool
deriving DecidableEq, Repr

structure PrimeMeridian where
  auth_name : String
  code : String
  name : String
  longitude : Rat
  uom_auth_name : String
  uom_code : String
  deprecated : Bool
deriving DecidableEq, Repr

structure GeodeticDatum where
  auth_name : String
  code : String
  name : String
  description : Option String
  scope : Option String
  ellipsoid_auth_name : String
  ellipsoid_code : String
  prime_meridian_auth_name : String
  prime_meridian_code : String
  area_of_use_auth_name : String
  area_of_use_code : String
  deprecated : Bool
deriving DecidableEq, Repr

structure VerticalDatum where
  auth_name : String
  code : String
  name : String
  description : Option String
  scope : Option String
  area_of_use_auth_name : String
  area_of_use_code : String
  deprecated : Bool
deriving DecidableEq, Repr

structure CoordinateSystem where
  auth_name : String
  code : String
  type : String
  dimension : Int
deriving DecidableEq, Repr

structure GeodeticCrs where
  auth_name : String
  code : String
  name : String
  description : Option String
  scope : Option String
  type : String
  coordinate_system_auth_name : Option String
  coordinate_system_code : Option String
  datum_auth_name : Option String
  datum_code : Option String
  area_of_use_auth_name : Option String
  area_of_use_code : Option String
  text_definition : Option String
  deprecated : Bool
deriving DecidableEq, Repr

structure VerticalCrs where
  auth_name : String
  code : String
  name : String
  description : Option String
  scope : Option String
  coordinate_system_auth_name : String
  coordinate_system_code : String
  datum_auth_name : String
  datum_code : String
  area_of_use_auth_name : String
  area_of_use_code : String
  deprecated : Bool
deriving DecidableEq, Repr

structure ProjectedCrs where
  auth_name : String
  code : String
  name : String
  description : Option String
  scope : Option String
  coordinate_system_auth_name : Option String
  coordinate_system_code : Option String
  geodetic_crs_auth_name : Option String
  geodetic_crs_code : Option String
  conversion_auth_name : Option String
  conversion_code : Option String
  area_of_use_auth_name : Option String
  area_of_use_code : Option String
  text_definition : Option String
  deprecated : Bool
deriving DecidableEq, Repr

structure CompoundCrs where
  auth_name : String
  code : String
  name : String
  description : Option String
  scope : Option String
  horiz_crs_auth_name : String
  horiz_crs_code : String
  vertical_crs_auth_name : String
  vertical_crs_code : String
  area_of_use_auth_name : String
  area_of_use_code : String
  deprecated : Bool
deriving DecidableEq, Repr

structure ConversionMethod where
  auth_name : String
  code : String
  name : String
deriving DecidableEq, Repr

structure ConversionTable where
  auth_name : String
  code : String
  name : String
  description : Option String
  scope : Option String
  area_of_use_auth_name : String
  area_of_use_code : String
  method_auth_name : Option String
  method_code : Option String
  param1_auth_name : Option String
  param1_code : Option String
  param1_value : Option Rat
  param1_uom_auth_name : Option String
  param1_uom_code : Option String
  param2_auth_name : Option String
  param2_code : Option String
  param2_value : Option Rat
  param2_uom_auth_name : Option String
  param2_uom_code : Option String
  param3_auth_name : Option String
  param3_code : Option String
  param3_value : Option Rat
  param3_uom_auth_name : Option String
  param3_uom_code : Option String
  param4_auth_name : Option String
  param4_code : Option String
  param4_value : Option Rat
  param4_uom_auth_name : Option String
  param4_uom_code : Option String
  param5_auth_name : Option String
  param5_code : Option String
  param5_value : Option Rat
  param5_uom_auth_name : Option String
  param5_uom_code : Option String
  param6_auth_name : Option String
  param6_code : Option String
  param6_value : Option Rat
  param6_uom_auth_name : Option String
  param6_uom_code : Option String
  param7_auth_name : Option String
  param7_code : Option String
  param7_value : Option Rat
  param7_uom_auth_name : Option String
  param7_uom_code : Option String
  deprecated : Bool
deriving DecidableEq, Repr

structure CoordinateOperationMethod where
  auth_name : String
  code : String
  name : String
deriving DecidableEq, Repr

structure HelmertTransformation where
  auth_name : String
  code : String
  name : String
  description : Option String
  scope : Option String
  method_auth_name : String
  method_code : String
  source_crs_auth_name : String
  source_crs_code : String
  target_crs_auth_name : String
  target_crs_code : String
  area_of_use_auth_name : String
  area_of_use_code : String
  accuracy : Option Rat
  tx : Rat
  ty : Rat
  tz : Rat
  translation_uom_auth_name : String
  translation_uom_code : String
  rx : Option Rat
  ry : Option Rat
  rz : Option Rat
  rotation_uom_auth_name : Option String
  rotation_uom_code : Option String
  scale_difference : Option Rat
  scale_difference_uom_auth_name : Option String
  scale_difference_uom_code : Option String
  rate_tx : Option Rat
  rate_ty : Option Rat
  rate_tz : Option Rat
  rate_translation_uom_auth_name : Option String
  rate_translation_uom_code : Option String
  rate_rx : Option Rat
  rate_ry : Option Rat
  rate_rz : Option Rat
  rate_rotation_uom_auth_name : Option String
  rate_rotation_uom_code : Option String
  rate_scale_difference : Option Rat
  rate_scale_difference_uom_auth_name : Option String
  rate_scale_difference_uom_code : Option String
  epoch : Option Rat
  epoch_uom_auth_name : Option String
  epoch_uom_code : Option String
  px : Option Rat
  py : Option Rat
  pz : Option Rat
  pivot_uom_auth_name : Option String
  pivot_uom_code : Option String
  operation_version : Option String
  deprecated : Bool
deriving DecidableEq, Repr

structure GridTransformation where
  auth_name : String
  code : String
  name : String
  description : Option String
  scope : Option String
  method_auth_name : String
  method_code : String
  method_name : String
  source_crs_auth_name : String
  source_crs_code : String
  target_crs_auth_name : String
  target_crs_code : String
  area_of_use_auth_name : String
  area_of_use_code : String
  accuracy : Option Rat
  grid_param_auth_name : String
  grid_param_code : String
  grid_param_name : String
  grid_name : String
  grid2_param_auth_name : Option String
  grid2_param_code : Option String
  grid2_param_name : Option String
  grid2_name : Option String
  interpolation_crs_auth_name : Option String
  interpolation_crs_code : Option String
  operation_version : Option String
  deprecated : Bool
deriving DecidableEq, Repr

structure GridPackages where
  package_name : String
  description : Option String
  url : Option String
  direct_download : Option Bool
  open_license : Option Bool
deriving DecidableEq, Repr

structure GridAlternatives where
  original_grid_name : String
  proj_grid_name : String
  proj_grid_format : String
  proj_method : String
  inverse_direction : Bool
  package_name : Option String
  url : Option String
  direct_download : Option Bool
  open_license : Option Bool
  directory : Option String
deriving DecidableEq, Repr

structure OtherTransformation where
  auth_name : String
  code : String
  name : String
  description : Option String
  scope : Option String
  method_auth_name : String
  method_code : String
  method_name : String
  source_crs_auth_name : String
  source_crs_code : String
  target_crs_auth_name : String
  target_crs_code : String
  area_of_use_auth_name : String
  area_of_use_code : String
  accuracy : Option Rat
  param1_auth_name : Option String
  param1_code : Option String
  param1_name : Option String
  param1_value : Option Rat
  param1_uom_auth_name : Option String
  param1_uom_code : Option String
  param2_auth_name : Option String
  param2_code : Option String
  param2_name : Option String
  param2_value : Option Rat
  param2_uom_auth_name : Option String
  param2_uom_code : Option String
  param3_auth_name : Option String
  param3_code : Option String
  param3_name : Option String
  param3_value : Option Rat
  param3_uom_auth_name : Option String
  param3_uom_code : Option String
  param4_auth_name : Option String
  param4_code : Option String
  param4_name : Option String
  param4_value : Option Rat
  param4_uom_auth_name : Option String
  param4_uom_code : Option String
  param5_auth_name : Option String
  param5_code : Option String
  param5_name : Option String
  param5_value : Option Rat
  param5_uom_auth_name : Option String
  param5_uom_code : Option String
  param6_auth_name : Option String
  param6_code : Option String
  param6_name : Option String
  param6_value : Option Rat
  param6_uom_auth_name : Option String
  param6_uom_code : Option String
  param7_auth_name : Option String
  param7_code : Option String
  param7_name : Option String
  param7_value : Option Rat
  param7_uom_auth_name : Option String
  param7_uom_code : Option String
  operation_version : Option String
  deprecated : Bool
deriving DecidableEq, Repr

structure ConcatenatedOperation where
  auth_name : String
  code : String
  name : String
  description : Option String
  scope : Option String
  source_crs_auth_name : String
  source_crs_code : String
  target_crs_auth_name : String
  target_crs_code : String
  area_of_use_auth_name : String
  area_of_use_code : String
  accuracy : Option Rat
  step1_auth_name : String
  step1_code : String
  step2_auth_name : String
  step2_code : String
  step3_auth_name : Option String
  step3_code : Option String
  operation_version : Option String
  deprecated : Bool
deriving DecidableEq, Repr

/-- The database: one list of rows per table. -/
structure Store where
  unit_of_measure : List UnitOfMeasure
  celestial_body : List CelestialBody
  ellipsoid : List Ellipsoid
  area : List Area
  prime_meridian : List PrimeMeridian
  geodetic_datum : List GeodeticDatum
  vertical_datum : List VerticalDatum
  coordinate_system : List CoordinateSystem
  geodetic_crs : List GeodeticCrs
  vertical_crs : List VerticalCrs
  projected_crs : List ProjectedCrs
  compound_crs : List CompoundCrs
  conversion_method : List ConversionMethod
  conversion_table : List ConversionTable
  coordinate_operation_method : List CoordinateOperationMethod
  helmert_transformation_table : List HelmertTransformation
  grid_transformation : List GridTransformation
  grid_packages : List GridPackages
  grid_alternatives : List GridAlternatives
  other_transformation : List OtherTransformation
  concatenated_operation : List ConcatenatedOperation
deriving DecidableEq, Repr

/-- The schema seeds one row: INSERT INTO celestial_body VALUES (PROJ, EARTH, Earth, 6378137.0). -/
def initialStore : Store :=
  { unit_of_measure := []
    celestial_body := [{ auth_name := "PROJ", code := "EARTH", name := "Earth", semi_major_axis := 6378137 }]
    ellipsoid := []
    area := []
    prime_meridian := []
    geodetic_datum := []
    vertical_datum := []
    coordinate_system := []
    geodetic_crs := []
    vertical_crs := []
    projected_crs := []
    compound_crs := []
    conversion_method := []
    conversion_table := []
    coordinate_operation_method := []
    helmert_transformation_table := []
    grid_transformation := []
    grid_packages := []
    grid_alternatives := []
    other_transformation := []
    concatenated_operation := [] }

/-! ### SQL semantics helpers

A trigger rule `SELECT RAISE(ABORT, msg) WHERE cond` fires only when `cond`
evaluates to TRUE under SQL three-valued logic; a NULL result never fires.
`optNeStr o v` is `o != v` for `o` the result of a scalar subquery. -/

def optNeStr : Option String → String → Bool
  | some t, v => t != v
  | none, _ => false

def optNeInt : Option Int → Int → Bool
  | some t, v => t != v
  | none, _ => false

def optNotInStr : Option String → List String → Bool
  | some t, vs => !(vs.contains t)
  | none, _ => false

def len1 (x : String) : Bool := decide (1 ≤ x.length)

def len2 (x : String) : Bool := decide (2 ≤ x.length)

def optLen1 : Option String → Bool
  | some x => len1 x
  | none => true

def optNonneg : Option Rat → Bool
  | some v => decide (0 ≤ v)
  | none => true

def optBetween (lo hi : Rat) : Option Rat → Bool
  | some v => decide (lo ≤ v) && decide (v ≤ hi)
  | none => true

/-! ### Scalar subqueries and EXISTS subqueries used by the triggers -/

def uom_find (s : Store) : Option String → Option String → Option UnitOfMeasure
  | some a, some c => s.unit_of_measure.find? (fun r => r.auth_name == a && r.code == c)
  | _, _ => none

def uom_type (s : Store) (a c : Option String) : Option String :=
  (uom_find s a c).map UnitOfMeasure.type

def cs_find (s : Store) : Option String → Option String → Option CoordinateSystem
  | some a, some c => s.coordinate_system.find? (fun r => r.auth_name == a && r.code == c)
  | _, _ => none

def cs_type (s : Store) (a c : Option String) : Option String :=
  (cs_find s a c).map CoordinateSystem.type

def cs_dimension (s : Store) (a c : Option String) : Option Int :=
  (cs_find s a c).map CoordinateSystem.dimension

def ellipsoid_deprecated_exists (s : Store) : Option String → Option String → Bool
  | some a, some c => s.ellipsoid.any (fun r => r.auth_name == a && r.code == c && r.deprecated)
  | _, _ => false

def prime_meridian_deprecated_exists (s : Store) : Option String → Option String → Bool
  | some a, some c => s.prime_meridian.any (fun r => r.auth_name == a && r.code == c && r.deprecated)
  | _, _ => false

def area_deprecated_exists (s : Store) : Option String → Option String → Bool
  | some a, some c => s.area.any (fun r => r.auth_name == a && r.code == c && r.deprecated)
  | _, _ => false

def geodetic_datum_deprecated_exists (s : Store) : Option String → Option String → Bool
  | some a, some c => s.geodetic_datum.any (fun r => r.auth_name == a && r.code == c && r.deprecated)
  | _, _ => false

def geodetic_crs_deprecated_exists (s : Store) : Option String → Option String → Bool
  | some a, some c => s.geodetic_crs.any (fun r => r.auth_name == a && r.code == c && r.deprecated)
  | _, _ => false

/-- The buggy rule in vertical_crs_insert_trigger scans vertical_crs (aliased
datum), not vertical_datum; this helper reproduces that scan. -/
def vertical_crs_deprecated_exists (s : Store) : Option String → Option String → Bool
  | some a, some c => s.vertical_crs.any (fun r => r.auth_name == a && r.code == c && r.deprecated)
  | _, _ => false

def conversion_deprecated_exists (s : Store) : Option String → Option String → Bool
  | some a, some c => s.conversion_table.any (fun r => r.auth_name == a && r.code == c && r.deprecated)
  | _, _ => false

def conversion_exists (s : Store) : Option String → Option String → Bool
  | some a, some c => s.conversion_table.any (fun r => r.auth_name == a && r.code == c)
  | _, _ => false

/-- Membership in crs_view: the UNION ALL of the four CRS kinds. -/
def crs_view_has (s : Store) (a c : String) : Bool :=
  s.geodetic_crs.any (fun r => r.auth_name == a && r.code == c) ||
  s.projected_crs.any (fun r => r.auth_name == a && r.code == c) ||
  s.vertical_crs.any (fun r => r.auth_name == a && r.code == c) ||
  s.compound_crs.any (fun r => r.auth_name == a && r.code == c)

/-- EXISTS over crs_view restricted to deprecated rows. -/
def crs_view_deprecated_has (s : Store) (a c : String) : Bool :=
  s.geodetic_crs.any (fun r => r.auth_name == a && r.code == c && r.deprecated) ||
  s.projected_crs.any (fun r => r.auth_name == a && r.code == c && r.deprecated) ||
  s.vertical_crs.any (fun r => r.auth_name == a && r.code == c && r.deprecated) ||
  s.compound_crs.any (fun r => r.auth_name == a && r.code == c && r.deprecated)

/-- Scalar subquery SELECT type FROM crs_view WHERE key: geodetic rows expose
their type column, the other three kinds expose the literals of the view. -/
def crs_view_type (s : Store) (a c : String) : Option String :=
  match s.geodetic_crs.find? (fun r => r.auth_name == a && r.code == c) with
  | some r => some r.type
  | none =>
    if s.projected_crs.any (fun r => r.auth_name == a && r.code == c) then some "projected"
    else if s.vertical_crs.any (fun r => r.auth_name == a && r.code == c) then some "vertical"
    else if s.compound_crs.any (fun r => r.auth_name == a && r.code == c) then some "compound"
    else none

/-- Membership in coordinate_operation_with_conversion_view: the UNION ALL of
grid, helmert, other, concatenated operations and conversions. -/
def covwv_has (s : Store) (a c : String) : Bool :=
  s.grid_transformation.any (fun r => r.auth_name == a && r.code == c) ||
  s.helmert_transformation_table.any (fun r => r.auth_name == a && r.code == c) ||
  s.other_transformation.any (fun r => r.auth_name == a && r.code == c) ||
  s.concatenated_operation.any (fun r => r.auth_name == a && r.code == c) ||
  s.conversion_table.any (fun r => r.auth_name == a && r.code == c)

def covwv_has_opt (s : Store) : Option String → Option String → Bool
  | some a, some c => covwv_has s a c
  | _, _ => false

def concat_op_has (s : Store) (a c : String) : Bool :=
  s.concatenated_operation.any (fun r => r.auth_name == a && r.code == c)

def concat_op_has_opt (s : Store) : Option String → Option String → Bool
  | some a, some c => concat_op_has s a c
  | _, _ => false

/-! ### Foreign keys (SQLite composite FK: satisfied when any column is NULL) -/

def fk_uom (s : Store) : Option String → Option String → Bool
  | some a, some c => s.unit_of_measure.any (fun r => r.auth_name == a && r.code == c)
  | _, _ => true

def fk_celestial_body (s : Store) : Option String → Option String → Bool
  | some a, some c => s.celestial_body.any (fun r => r.auth_name == a && r.code == c)
  | _, _ => true

def fk_area (s : Store) : Option String → Option String → Bool
  | some a, some c => s.area.any (fun r => r.auth_name == a && r.code == c)
  | _, _ => true

def fk_cs (s : Store) : Option String → Option String → Bool
  | some a, some c => s.coordinate_system.any (fun r => r.auth_name == a && r.code == c)
  | _, _ => true

def fk_geodetic_datum (s : Store) : Option String → Option String → Bool
  | some a, some c => s.geodetic_datum.any (fun r => r.auth_name == a && r.code == c)
  | _, _ => true

def fk_vertical_datum (s : Store) : Option String → Option String → Bool
  | some a, some c => s.vertical_datum.any (fun r => r.auth_name == a && r.code == c)
  | _, _ => true

def fk_geodetic_crs (s : Store) : Option String → Option String → Bool
  | some a, some c => s.geodetic_crs.any (fun r => r.auth_name == a && r.code == c)
  | _, _ => true

def fk_conversion (s : Store) : Option String → Option String → Bool
  | some a, some c => s.conversion_table.any (fun r => r.auth_name == a && r.code == c)
  | _, _ => true

def fk_conversion_method (s : Store) : Option String → Option String → Bool
  | some a, some c => s.conversion_method.any (fun r => r.auth_name == a && r.code == c)
  | _, _ => true

def fk_coordinate_operation_method (s : Store) : Option String → Option String → Bool
  | some a, some c => s.coordinate_operation_method.any (fun r => r.auth_name == a && r.code == c)
  | _, _ => true

def fk_vertical_crs (s : Store) : Option String → Option String → Bool
  | some a, some c => s.vertical_crs.any (fun r => r.auth_name == a && r.code == c)
  | _, _ => true

def fk_grid_packages (s : Store) : Option String → Bool
  | some p => s.grid_packages.any (fun r => r.package_name == p)
  | none => true

/-! ### Trigger evaluation

A BEFORE INSERT trigger is a list of (condition, abort message) pairs evaluated
in source order; the first true condition aborts the insert with its message,
otherwise the insert continues with the constraint check and the row append. -/

def runChecksThen (k : Except String Store) : List (Bool × String) → Except String Store
  | [] => k
  | (b, m) :: rest => if b then Except.error m else runChecksThen k rest

/-! ### Inserts: leaf tables -/

def unit_of_measure_checks (new : UnitOfMeasure) : Bool :=
  len1 new.auth_name && len1 new.code && len2 new.name &&
  ["length", "angle", "scale", "time"].contains new.type

def unit_of_measure_pk (s : Store) (new : UnitOfMeasure) : Bool :=
  !(s.unit_of_measure.any (fun r => r.auth_name == new.auth_name && r.code == new.code))

def insert_unit_of_measure (s : Store) (new : UnitOfMeasure) : Except String Store :=
  if unit_of_measure_checks new && unit_of_measure_pk s new then
    .ok { s with unit_of_measure := s.unit_of_measure ++ [new] }
  else
    .error "unit_of_measure constraint failed"

def celestial_body_checks (new : CelestialBody) : Bool :=
  len1 new.auth_name && len1 new.code && len2 new.name && decide (0 < new.semi_major_axis)

def celestial_body_pk (s : Store) (new : CelestialBody) : Bool :=
  !(s.celestial_body.any (fun r => r.auth_name == new.auth_name && r.code == new.code))

def insert_celestial_body (s : Store) (new : CelestialBody) : Except String Store :=
  if celestial_body_checks new && celestial_body_pk s new then
    .ok { s with celestial_body := s.celestial_body ++ [new] }
  else
    .error "celestial_body constraint failed"

def ellipsoid_checks (new : Ellipsoid) : Bool :=
  len1 new.auth_name && len1 new.code && len2 new.name &&
  decide (0 < new.semi_major_axis) &&
  (match new.inv_flattening with
   | some f => f == 0 || decide (1 ≤ f)
   | none => true) &&
  (match new.semi_minor_axis with
   | some m => decide (0 < m) && decide (m ≤ new.semi_major_axis)
   | none => true)

def ellipsoid_pk (s : Store) (new : Ellipsoid) : Bool :=
  !(s.ellipsoid.any (fun r => r.auth_name == new.auth_name && r.code == new.code))

def ellipsoid_fks (s : Store) (new : Ellipsoid) : Bool :=
  fk_celestial_body s (some new.celestial_body_auth_name) (some new.celestial_body_code) &&
  fk_uom s (some new.uom_auth_name) (some new.uom_code)

def ellipsoid_trigger_checks (s : Store) (new : Ellipsoid) : List (Bool × String) :=
  [((new.inv_flattening.isNone && new.semi_minor_axis.isNone) ||
    (new.inv_flattening.isSome && new.semi_minor_axis.isSome),
    "insert on ellipsoid violates constraint: inv_flattening (exclusive) or semi_minor_axis should be defined"),
   (optNeStr (uom_type s (some new.uom_auth_name) (some new.uom_code)) "length",
    "insert on ellipsoid violates constraint: uom should be of type length")]

def insert_ellipsoid (s : Store) (new : Ellipsoid) : Except String Store :=
  runChecksThen
    (if ellipsoid_checks new && ellipsoid_pk s new && ellipsoid_fks s new then
      .ok { s with ellipsoid := s.ellipsoid ++ [new] }
    else .error "ellipsoid constraint failed")
    (ellipsoid_trigger_checks s new)

/-- Rule WHERE NEW.south_lat > NEW.north_lat (never fires on NULL bounds). -/
def area_south_north_violation (new : Area) : Bool :=
  match new.south_lat, new.north_lat with
  | some sl, some nl => decide (nl < sl)
  | _, _ => false

/-- Rule WHERE NOT(west_lon <= east_lon OR (east_lon + 360 - west_lon <= 200)). -/
def area_lon_violation (new : Area) : Bool :=
  match new.west_lon, new.east_lon with
  | some w, some e => !(decide (w ≤ e) || decide (e + 360 - w ≤ 200))
  | _, _ => false

def area_checks (new : Area) : Bool :=
  len1 new.auth_name && len1 new.code && len2 new.name &&
  optBetween (-90) 90 new.south_lat && optBetween (-90) 90 new.north_lat &&
  optBetween (-180) 180 new.west_lon && optBetween (-180) 180 new.east_lon

def area_pk (s : Store) (new : Area) : Bool :=
  !(s.area.any (fun r => r.auth_name == new.auth_name && r.code == new.code))

def area_trigger_checks (new : Area) : List (Bool × String) :=
  [(area_south_north_violation new,
    "insert on area violates constraint: south_lat <= north_lat"),
   (area_lon_violation new,
    "insert on area violates constraint: west_lon <= east_lon OR (east_lon + 360 - west_lon <= 200)")]

def insert_area (s : Store) (new : Area) : Except String Store :=
  runChecksThen
    (if area_checks new && area_pk s new then
      .ok { s with area := s.area ++ [new] }
    else .error "area constraint failed")
    (area_trigger_checks new)

def prime_meridian_checks (new : PrimeMeridian) : Bool :=
  len1 new.auth_name && len1 new.code && len2 new.name &&
  decide (-180 ≤ new.longitude) && decide (new.longitude ≤ 180)

def prime_meridian_pk (s : Store) (new : PrimeMeridian) : Bool :=
  !(s.prime_meridian.any (fun r => r.auth_name == new.auth_name && r.code == new.code))

def prime_meridian_trigger_checks (s : Store) (new : PrimeMeridian) : List (Bool × String) :=
  [(optNeStr (uom_type s (some new.uom_auth_name) (some new.uom_code)) "angle",
    "insert on prime_meridian violates constraint: uom should be of type angle")]

def insert_prime_meridian (s : Store) (new : PrimeMeridian) : Except String Store :=
  runChecksThen
    (if prime_meridian_checks new && prime_meridian_pk s new &&
        fk_uom s (some new.uom_auth_name) (some new.uom_code) then
      .ok { s with prime_meridian := s.prime_meridian ++ [new] }
    else .error "prime_meridian constraint failed")
    (prime_meridian_trigger_checks s new)

def geodetic_datum_checks (new : GeodeticDatum) : Bool :=
  len1 new.auth_name && len1 new.code && len2 new.name

def geodetic_datum_pk (s : Store) (new : GeodeticDatum) : Bool :=
  !(s.geodetic_datum.any (fun r => r.auth_name == new.auth_name && r.code == new.code))

def geodetic_datum_fks (s : Store) (new : GeodeticDatum) : Bool :=
  s.ellipsoid.any (fun r => r.auth_name == new.ellipsoid_auth_name && r.code == new.ellipsoid_code) &&
  s.prime_meridian.any (fun r => r.auth_name == new.prime_meridian_auth_name && r.code == new.prime_meridian_code) &&
  fk_area s (some new.area_of_use_auth_name) (some new.area_of_use_code)

def geodetic_datum_trigger_checks (s : Store) (new : GeodeticDatum) : List (Bool × String) :=
  [(ellipsoid_deprecated_exists s (some new.ellipsoid_auth_name) (some new.ellipsoid_code) && !new.deprecated,
    "insert on geodetic_datum violates constraint: ellipsoid must not be deprecated when geodetic_datum is not deprecated"),
   (prime_meridian_deprecated_exists s (some new.prime_meridian_auth_name) (some new.prime_meridian_code) && !new.deprecated,
    "insert on geodetic_datum violates constraint: prime_meridian must not be deprecated when geodetic_datum is not deprecated"),
   (area_deprecated_exists s (some new.area_of_use_auth_name) (some new.area_of_use_code) && !new.deprecated,
    "insert on geodetic_datum violates constraint: area_of_use must not be deprecated when geodetic_datum is not deprecated")]

def insert_geodetic_datum (s : Store) (new : GeodeticDatum) : Except String Store :=
  runChecksThen
    (if geodetic_datum_checks new && geodetic_datum_pk s new && geodetic_datum_fks s new then
      .ok { s with geodetic_datum := s.geodetic_datum ++ [new] }
    else .error "geodetic_datum constraint failed")
    (geodetic_datum_trigger_checks s new)

def vertical_datum_checks (new : VerticalDatum) : Bool :=
  len1 new.auth_name && len1 new.code && len2 new.name

def vertical_datum_pk (s : Store) (new : VerticalDatum) : Bool :=
  !(s.vertical_datum.any (fun r => r.auth_name == new.auth_name && r.code == new.code))

def vertical_datum_trigger_checks (s : Store) (new : VerticalDatum) : List (Bool × String) :=
  [(area_deprecated_exists s (some new.area_of_use_auth_name) (some new.area_of_use_code) && !new.deprecated,
    "insert on vertical_datum violates constraint: area_of_use must not be deprecated when vertical_datum is not deprecated")]

def insert_vertical_datum (s : Store) (new : VerticalDatum) : Except String Store :=
  runChecksThen
    (if vertical_datum_checks new && vertical_datum_pk s new &&
        fk_area s (some new.area_of_use_auth_name) (some new.area_of_use_code) then
      .ok { s with vertical_datum := s.vertical_datum ++ [new] }
    else .error "vertical_datum constraint failed")
    (vertical_datum_trigger_checks s new)

def coordinate_system_checks (new : CoordinateSystem) : Bool :=
  len1 new.auth_name && len1 new.code &&
  ["Cartesian", "vertical", "ellipsoidal", "spherical"].contains new.type &&
  decide (1 ≤ new.dimension) && decide (new.dimension ≤ 3)

def coordinate_system_pk (s : Store) (new : CoordinateSystem) : Bool :=
  !(s.coordinate_system.any (fun r => r.auth_name == new.auth_name && r.code == new.code))

def coordinate_system_trigger_checks (new : CoordinateSystem) : List (Bool × String) :=
  [(new.type == "vertical" && new.dimension != 1,
    "insert on coordinate_system violates constraint: dimension must be equal to 1 for type = vertical"),
   (new.type == "Cartesian" && !(new.dimension == 2 || new.dimension == 3),
    "insert on coordinate_system violates constraint: dimension must be equal to 2 or 3 for type = Cartesian"),
   (new.type == "ellipsoidal" && !(new.dimension == 2 || new.dimension == 3),
    "insert on coordinate_system violates constraint: dimension must be equal to 2 or 3 for type = ellipsoidal")]

def insert_coordinate_system (s : Store) (new : CoordinateSystem) : Except String Store :=
  runChecksThen
    (if coordinate_system_checks new && coordinate_system_pk s new then
      .ok { s with coordinate_system := s.coordinate_system ++ [new] }
    else .error "coordinate_system constraint failed")
    (coordinate_system_trigger_checks new)

/-! ### Inserts: CRS tables -/

def geodetic_crs_checks (new : GeodeticCrs) : Bool :=
  len1 new.auth_name && len1 new.code && len2 new.name &&
  ["geographic 2D", "geographic 3D", "geocentric"].contains new.type

def geodetic_crs_pk (s : Store) (new : GeodeticCrs) : Bool :=
  !(s.geodetic_crs.any (fun r => r.auth_name == new.auth_name && r.code == new.code))

def geodetic_crs_fks (s : Store) (new : GeodeticCrs) : Bool :=
  fk_cs s new.coordinate_system_auth_name new.coordinate_system_code &&
  fk_geodetic_datum s new.datum_auth_name new.datum_code &&
  fk_area s new.area_of_use_auth_name new.area_of_use_code

/-- Rule 6 of geodetic_crs_insert_trigger.  The source condition ends in
AND NEW.text_definition IS NOT NULL, so it never applies to structured rows. -/
def geodetic_crs_datum_deprecated_check (s : Store) (new : GeodeticCrs) : Bool :=
  geodetic_datum_deprecated_exists s new.datum_auth_name new.datum_code &&
  !new.deprecated && new.text_definition.isSome

/-- Rule 8 of geodetic_crs_insert_trigger, same IS NOT NULL guard. -/
def geodetic_crs_area_deprecated_check (s : Store) (new : GeodeticCrs) : Bool :=
  area_deprecated_exists s new.area_of_use_auth_name new.area_of_use_code &&
  !new.deprecated && new.text_definition.isSome

def geodetic_crs_trigger_checks (s : Store) (new : GeodeticCrs) : List (Bool × String) :=
  [(crs_view_has s new.auth_name new.code,
    "insert on geodetic_crs violates constraint: (auth_name, code) must not already exist in crs_view"),
   ((new.coordinate_system_auth_name.isNone || new.coordinate_system_code.isNone) && new.text_definition.isNone,
    "insert on geodetic_crs violates constraint: coordinate_system must be defined when text_definition is NULL"),
   ((new.datum_auth_name.isNone || new.datum_code.isNone) && new.text_definition.isNone,
    "insert on geodetic_crs violates constraint: datum must be defined when text_definition is NULL"),
   (!(new.coordinate_system_auth_name.isNone || new.coordinate_system_code.isNone) && new.text_definition.isSome,
    "insert on geodetic_crs violates constraint: coordinate_system must NOT be defined when text_definition is NOT NULL"),
   (!(new.datum_auth_name.isNone || new.datum_code.isNone) && new.text_definition.isSome,
    "insert on geodetic_crs violates constraint: datum must NOT be defined when text_definition is NOT NULL"),
   (geodetic_crs_datum_deprecated_check s new,
    "insert on geodetic_crs violates constraint: datum must not be deprecated when geodetic_crs is not deprecated"),
   ((new.area_of_use_auth_name.isNone || new.area_of_use_code.isNone) && new.text_definition.isNone,
    "insert on geodetic_crs violates constraint: area_of_use must be defined when text_definition is NULL"),
   (geodetic_crs_area_deprecated_check s new,
    "insert on geodetic_crs violates constraint: area_of_use must not be deprecated when geodetic_crs is not deprecated"),
   (new.type == "geocentric" && optNeInt (cs_dimension s new.coordinate_system_auth_name new.coordinate_system_code) 3,
    "insert on geodetic_crs violates constraint: coordinate_system.dimension must be 3 for type = geocentric"),
   (new.type == "geocentric" && optNeStr (cs_type s new.coordinate_system_auth_name new.coordinate_system_code) "Cartesian",
    "insert on geodetic_crs violates constraint: coordinate_system.type must be Cartesian for type = geocentric"),
   ((new.type == "geographic 2D" || new.type == "geographic 3D") && optNeStr (cs_type s new.coordinate_system_auth_name new.coordinate_system_code) "ellipsoidal",
    "insert on geodetic_crs violates constraint: coordinate_system.type must be ellipsoidal for type = geographic 2D or geographic 3D"),
   (new.type == "geographic 2D" && !new.deprecated && optNeInt (cs_dimension s new.coordinate_system_auth_name new.coordinate_system_code) 2,
    "insert on geodetic_crs violates constraint: coordinate_system.dimension must be 2 for type = geographic 2D"),
   (new.type == "geographic 3D" && optNeInt (cs_dimension s new.coordinate_system_auth_name new.coordinate_system_code) 3,
    "insert on geodetic_crs violates constraint: coordinate_system.dimension must be 3 for type = geographic 3D")]

def insert_geodetic_crs (s : Store) (new : GeodeticCrs) : Except String Store :=
  runChecksThen
    (if geodetic_crs_checks new && geodetic_crs_pk s new && geodetic_crs_fks s new then
      .ok { s with geodetic_crs := s.geodetic_crs ++ [new] }
    else .error "geodetic_crs constraint failed")
    (geodetic_crs_trigger_checks s new)

def vertical_crs_checks (new : VerticalCrs) : Bool :=
  len1 new.auth_name && len1 new.code && len2 new.name

def vertical_crs_pk (s : Store) (new : VerticalCrs) : Bool :=
  !(s.vertical_crs.any (fun r => r.auth_name == new.auth_name && r.code == new.code))

def vertical_crs_fks (s : Store) (new : VerticalCrs) : Bool :=
  fk_cs s (some new.coordinate_system_auth_name) (some new.coordinate_system_code) &&
  fk_vertical_datum s (some new.datum_auth_name) (some new.datum_code) &&
  fk_area s (some new.area_of_use_auth_name) (some new.area_of_use_code)

/-- Rule 2 of vertical_crs_insert_trigger: its EXISTS subquery reads
FROM vertical_crs datum, i.e. the CRS table itself, not vertical_datum. -/
def vertical_crs_datum_deprecated_check (s : Store) (new : VerticalCrs) : Bool :=
  vertical_crs_deprecated_exists s (some new.datum_auth_name) (some new.datum_code) &&
  !new.deprecated

def vertical_crs_trigger_checks (s : Store) (new : VerticalCrs) : List (Bool × String) :=
  [(crs_view_has s new.auth_name new.code,
    "insert on vertical_crs violates constraint: (auth_name, code) must not already exist in crs_view"),
   (vertical_crs_datum_deprecated_check s new,
    "insert on vertical_crs violates constraint: datum must not be deprecated when vertical_crs is not deprecated"),
   (area_deprecated_exists s (some new.area_of_use_auth_name) (some new.area_of_use_code) && !new.deprecated,
    "insert on vertical_crs violates constraint: area_of_use must not be deprecated when vertical_crs is not deprecated"),
   (optNeStr (cs_type s (some new.coordinate_system_auth_name) (some new.coordinate_system_code)) "vertical",
    "insert on vertical_crs violates constraint: coordinate_system.type must be vertical"),
   (optNeInt (cs_dimension s (some new.coordinate_system_auth_name) (some new.coordinate_system_code)) 1,
    "insert on vertical_crs violates constraint: coordinate_system.dimension must be 1")]

def insert_vertical_crs (s : Store) (new : VerticalCrs) : Except String Store :=
  runChecksThen
    (if vertical_crs_checks new && vertical_crs_pk s new && vertical_crs_fks s new then
      .ok { s with vertical_crs := s.vertical_crs ++ [new] }
    else .error "vertical_crs constraint failed")
    (vertical_crs_trigger_checks s new)

def projected_crs_checks (new : ProjectedCrs) : Bool :=
  len1 new.auth_name && len1 new.code && len2 new.name

def projected_crs_pk (s : Store) (new : ProjectedCrs) : Bool :=
  !(s.projected_crs.any (fun r => r.auth_name == new.auth_name && r.code == new.code))

def projected_crs_fks (s : Store) (new : ProjectedCrs) : Bool :=
  fk_cs s new.coordinate_system_auth_name new.coordinate_system_code &&
  fk_geodetic_crs s new.geodetic_crs_auth_name new.geodetic_crs_code &&
  fk_conversion s new.conversion_auth_name new.conversion_code &&
  fk_area s new.area_of_use_auth_name new.area_of_use_code

/-- Rule 4 of projected_crs_insert_trigger: the deprecated-base rejection is
waived when NEW.auth_name = ESRI and the base geodetic CRS authority is not ESRI. -/
def projected_crs_geodetic_deprecated_check (s : Store) (new : ProjectedCrs) : Bool :=
  geodetic_crs_deprecated_exists s new.geodetic_crs_auth_name new.geodetic_crs_code &&
  !new.deprecated &&
  !(new.auth_name == "ESRI" && !(new.geodetic_crs_auth_name == some "ESRI"))

def projected_crs_trigger_checks (s : Store) (new : ProjectedCrs) : List (Bool × String) :=
  [(crs_view_has s new.auth_name new.code,
    "insert on projected_crs violates constraint: (auth_name, code) must not already exist in crs_view"),
   ((new.coordinate_system_auth_name.isNone || new.coordinate_system_code.isNone) && new.text_definition.isNone,
    "insert on projected_crs violates constraint: coordinate_system must be defined when text_definition is NULL"),
   ((new.geodetic_crs_auth_name.isNone || new.geodetic_crs_code.isNone) && new.text_definition.isNone,
    "insert on projected_crs violates constraint: geodetic_crs must be defined when text_definition is NULL"),
   (projected_crs_geodetic_deprecated_check s new,
    "insert on projected_crs violates constraint: geodetic_crs must not be deprecated when projected_crs is not deprecated"),
   (!(conversion_exists s new.conversion_auth_name new.conversion_code) && new.text_definition.isNone,
    "insert on projected_crs violates constraint: conversion must exist when text_definition is NULL"),
   (conversion_deprecated_exists s new.conversion_auth_name new.conversion_code && !new.deprecated,
    "insert on projected_crs violates constraint: conversion must not be deprecated when projected_crs is not deprecated"),
   (!(new.coordinate_system_auth_name.isNone || new.coordinate_system_code.isNone) && new.text_definition.isSome,
    "insert on projected_crs violates constraint: coordinate_system must NOT be defined when text_definition is NOT NULL"),
   (!(new.conversion_auth_name.isNone || new.conversion_code.isNone) && new.text_definition.isSome,
    "insert on projected_crs violates constraint: conversion must NOT be defined when text_definition is NULL"),
   ((new.area_of_use_auth_name.isNone || new.area_of_use_code.isNone) && new.text_definition.isNone,
    "insert on projected_crs violates constraint: area_of_use must be defined when text_definition is NULL"),
   (area_deprecated_exists s new.area_of_use_auth_name new.area_of_use_code && !new.deprecated && new.text_definition.isSome,
    "insert on projected_crs violates constraint: area_of_use must not be deprecated when projected_crs is not deprecated"),
   (optNeStr (cs_type s new.coordinate_system_auth_name new.coordinate_system_code) "Cartesian",
    "insert on projected_crs violates constraint: coordinate_system.type must be cartesian"),
   (!(new.coordinate_system_auth_name == some "EPSG" && new.coordinate_system_code == some "4461") &&
    optNeInt (cs_dimension s new.coordinate_system_auth_name new.coordinate_system_code) 2,
    "insert on projected_crs violates constraint: coordinate_system.dimension must be 2")]

def insert_projected_crs (s : Store) (new : ProjectedCrs) : Except String Store :=
  runChecksThen
    (if projected_crs_checks new && projected_crs_pk s new && projected_crs_fks s new then
      .ok { s with projected_crs := s.projected_crs ++ [new] }
    else .error "projected_crs constraint failed")
    (projected_crs_trigger_checks s new)

def compound_crs_checks (new : CompoundCrs) : Bool :=
  len1 new.auth_name && len1 new.code && len2 new.name

def compound_crs_pk (s : Store) (new : CompoundCrs) : Bool :=
  !(s.compound_crs.any (fun r => r.auth_name == new.auth_name && r.code == new.code))

def compound_crs_fks (s : Store) (new : CompoundCrs) : Bool :=
  fk_vertical_crs s (some new.vertical_crs_auth_name) (some new.vertical_crs_code) &&
  fk_area s (some new.area_of_use_auth_name) (some new.area_of_use_code)

def compound_crs_trigger_checks (s : Store) (new : CompoundCrs) : List (Bool × String) :=
  [(crs_view_has s new.auth_name new.code,
    "insert on compound_crs violates constraint: (auth_name, code) must not already exist in crs_view"),
   (!(crs_view_has s new.horiz_crs_auth_name new.horiz_crs_code),
    "insert on compound_crs violates constraint: horiz_crs(auth_name, code) not found"),
   (optNotInStr (crs_view_type s new.horiz_crs_auth_name new.horiz_crs_code) ["geographic 2D", "projected"],
    "insert on compound_crs violates constraint: horiz_crs must be equal to geographic 2D or projected"),
   (optNotInStr (crs_view_type s new.vertical_crs_auth_name new.vertical_crs_code) ["vertical"],
    "insert on compound_crs violates constraint: vertical_crs must be equal to vertical"),
   (crs_view_deprecated_has s new.horiz_crs_auth_name new.horiz_crs_code && !new.deprecated,
    "insert on compound_crs violates constraint: horiz_crs must not be deprecated when compound_crs is not deprecated"),
   (vertical_crs_deprecated_exists s (some new.vertical_crs_auth_name) (some new.vertical_crs_code) && !new.deprecated,
    "insert on compound_crs violates constraint: vertical_crs must not be deprecated when compound_crs is not deprecated"),
   (area_deprecated_exists s (some new.area_of_use_auth_name) (some new.area_of_use_code) && !new.deprecated,
    "insert on compound_crs violates constraint: area_of_use must not be deprecated when compound_crs is not deprecated")]

def insert_compound_crs (s : Store) (new : CompoundCrs) : Except String Store :=
  runChecksThen
    (if compound_crs_checks new && compound_crs_pk s new && compound_crs_fks s new then
      .ok { s with compound_crs := s.compound_crs ++ [new] }
    else .error "compound_crs constraint failed")
    (compound_crs_trigger_checks s new)

/-! ### Inserts: coordinate operation tables -/

/-- The fixed vocabulary enforced by conversion_method_insert_trigger. -/
def knownConversionMethods : List String :=
  ["EPSG_1024_Popular Visualisation Pseudo Mercator",
   "EPSG_1027_Lambert Azimuthal Equal Area (Spherical)",
   "EPSG_1028_Equidistant Cylindrical",
   "EPSG_1029_Equidistant Cylindrical (Spherical)",
   "EPSG_1041_Krovak (North Orientated)",
   "EPSG_1042_Krovak Modified",
   "EPSG_1043_Krovak Modified (North Orientated)",
   "EPSG_1051_Lambert Conic Conformal (2SP Michigan)",
   "EPSG_1052_Colombia Urban",
   "EPSG_1068_Height Depth Reversal",
   "EPSG_1069_Change of Vertical Unit",
   "EPSG_1078_Equal Earth",
   "EPSG_9602_Geographic/geocentric conversions",
   "EPSG_9659_Geographic3D to 2D conversion",
   "EPSG_9801_Lambert Conic Conformal (1SP)",
   "EPSG_9802_Lambert Conic Conformal (2SP)",
   "EPSG_9803_Lambert Conic Conformal (2SP Belgium)",
   "EPSG_9804_Mercator (variant A)",
   "EPSG_9805_Mercator (variant B)",
   "EPSG_9806_Cassini-Soldner",
   "EPSG_9807_Transverse Mercator",
   "EPSG_9808_Transverse Mercator (South Orientated)",
   "EPSG_9809_Oblique Stereographic",
   "EPSG_9810_Polar Stereographic (variant A)",
   "EPSG_9811_New Zealand Map Grid",
   "EPSG_9812_Hotine Oblique Mercator (variant A)",
   "EPSG_9813_Laborde Oblique Mercator",
   "EPSG_9815_Hotine Oblique Mercator (variant B)",
   "EPSG_9816_Tunisia Mining Grid",
   "EPSG_9817_Lambert Conic Near-Conformal",
   "EPSG_9818_American Polyconic",
   "EPSG_9819_Krovak",
   "EPSG_9820_Lambert Azimuthal Equal Area",
   "EPSG_9821_Lambert Azimuthal Equal Area (Spherical)",
   "EPSG_9822_Albers Equal Area",
   "EPSG_9823_Equidistant Cylindrical (Spherical)",
   "EPSG_9824_Transverse Mercator Zoned Grid System",
   "EPSG_9826_Lambert Conic Conformal (West Orientated)",
   "EPSG_9828_Bonne (South Orientated)",
   "EPSG_9829_Polar Stereographic (variant B)",
   "EPSG_9830_Polar Stereographic (variant C)",
   "EPSG_9831_Guam Projection",
   "EPSG_9832_Modified Azimuthal Equidistant",
   "EPSG_9833_Hyperbolic Cassini-Soldner",
   "EPSG_9834_Lambert Cylindrical Equal Area (Spherical)",
   "EPSG_9835_Lambert Cylindrical Equal Area",
   "EPSG_9836_Geocentric/topocentric conversions",
   "EPSG_9837_Geographic/topocentric conversions",
   "EPSG_9838_Vertical Perspective",
   "EPSG_9841_Mercator (1SP) (Spherical)",
   "EPSG_9842_Equidistant Cylindrical",
   "EPSG_9843_Axis Order Reversal (2D)",
   "EPSG_9844_Axis Order Reversal (Geographic3D horizontal)",
   "EPSG_9827_Bonne",
   "PROJ_gstm_Gauss Schreiber Transverse Mercator",
   "PROJ_mill_PROJ mill"]

def conversion_method_pk (s : Store) (new : ConversionMethod) : Bool :=
  !(s.conversion_method.any (fun r => r.auth_name == new.auth_name && r.code == new.code))

def conversion_method_trigger_checks (new : ConversionMethod) : List (Bool × String) :=
  [(!(knownConversionMethods.contains (new.auth_name ++ "_" ++ new.code ++ "_" ++ new.name)),
    "insert on conversion violates constraint: method should be known")]

def insert_conversion_method (s : Store) (new : ConversionMethod) : Except String Store :=
  runChecksThen
    (if len1 new.auth_name && len1 new.code && len2 new.name && conversion_method_pk s new then
      .ok { s with conversion_method := s.conversion_method ++ [new] }
    else .error "conversion_method constraint failed")
    (conversion_method_trigger_checks new)

def conversion_table_checks (new : ConversionTable) : Bool :=
  len1 new.auth_name && len1 new.code && len2 new.name &&
  optLen1 new.method_auth_name && optLen1 new.method_code

def conversion_table_pk (s : Store) (new : ConversionTable) : Bool :=
  !(s.conversion_table.any (fun r => r.auth_name == new.auth_name && r.code == new.code))

def conversion_table_fks (s : Store) (new : ConversionTable) : Bool :=
  fk_area s (some new.area_of_use_auth_name) (some new.area_of_use_code) &&
  fk_conversion_method s new.method_auth_name new.method_code &&
  fk_uom s new.param1_uom_auth_name new.param1_uom_code &&
  fk_uom s new.param2_uom_auth_name new.param2_uom_code &&
  fk_uom s new.param3_uom_auth_name new.param3_uom_code &&
  fk_uom s new.param4_uom_auth_name new.param4_uom_code &&
  fk_uom s new.param5_uom_auth_name new.param5_uom_code &&
  fk_uom s new.param6_uom_auth_name new.param6_uom_code &&
  fk_uom s new.param7_uom_auth_name new.param7_uom_code

def conversion_table_trigger_checks (s : Store) (new : ConversionTable) : List (Bool × String) :=
  [(covwv_has s new.auth_name new.code,
    "insert on conversion_table violates constraint: (auth_name, code) must not already exist in coordinate_operation_with_conversion_view")]

def insert_conversion_table (s : Store) (new : ConversionTable) : Except String Store :=
  runChecksThen
    (if conversion_table_checks new && conversion_table_pk s new && conversion_table_fks s new then
      .ok { s with conversion_table := s.conversion_table ++ [new] }
    else .error "conversion_table constraint failed")
    (conversion_table_trigger_checks s new)

def coordinate_operation_method_pk (s : Store) (new : CoordinateOperationMethod) : Bool :=
  !(s.coordinate_operation_method.any (fun r => r.auth_name == new.auth_name && r.code == new.code))

def insert_coordinate_operation_method (s : Store) (new : CoordinateOperationMethod) : Except String Store :=
  if len1 new.auth_name && len1 new.code && len2 new.name && coordinate_operation_method_pk s new then
    .ok { s with coordinate_operation_method := s.coordinate_operation_method ++ [new] }
  else
    .error "coordinate_operation_method constraint failed"

def helmert_checks (new : HelmertTransformation) : Bool :=
  len1 new.auth_name && len1 new.code && len2 new.name &&
  len1 new.method_auth_name && len1 new.method_code &&
  optNonneg new.accuracy

def helmert_pk (s : Store) (new : HelmertTransformation) : Bool :=
  !(s.helmert_transformation_table.any (fun r => r.auth_name == new.auth_name && r.code == new.code))

def helmert_fks (s : Store) (new : HelmertTransformation) : Bool :=
  fk_geodetic_crs s (some new.source_crs_auth_name) (some new.source_crs_code) &&
  fk_geodetic_crs s (some new.target_crs_auth_name) (some new.target_crs_code) &&
  fk_area s (some new.area_of_use_auth_name) (some new.area_of_use_code) &&
  fk_coordinate_operation_method s (some new.method_auth_name) (some new.method_code) &&
  fk_uom s (some new.translation_uom_auth_name) (some new.translation_uom_code) &&
  fk_uom s new.rotation_uom_auth_name new.rotation_uom_code &&
  fk_uom s new.scale_difference_uom_auth_name new.scale_difference_uom_code &&
  fk_uom s new.rate_translation_uom_auth_name new.rate_translation_uom_code &&
  fk_uom s new.rate_rotation_uom_auth_name new.rate_rotation_uom_code &&
  fk_uom s new.rate_scale_difference_uom_auth_name new.rate_scale_difference_uom_code &&
  fk_uom s new.epoch_uom_auth_name new.epoch_uom_code &&
  fk_uom s new.pivot_uom_auth_name new.pivot_uom_code

/-- Deprecated-source rule of helmert_transformation_insert_trigger; the
rejection is waived when NEW.auth_name = ESRI. -/
def helmert_source_deprecated_check (s : Store) (new : HelmertTransformation) : Bool :=
  geodetic_crs_deprecated_exists s (some new.source_crs_auth_name) (some new.source_crs_code) &&
  !new.deprecated && !(new.auth_name == "ESRI")

def helmert_target_deprecated_check (s : Store) (new : HelmertTransformation) : Bool :=
  geodetic_crs_deprecated_exists s (some new.target_crs_auth_name) (some new.target_crs_code) &&
  !new.deprecated && !(new.auth_name == "ESRI")

def helmert_trigger_checks (s : Store) (new : HelmertTransformation) : List (Bool × String) :=
  [(covwv_has s new.auth_name new.code,
    "insert on helmert_transformation violates constraint: (auth_name, code) must not already exist in coordinate_operation_with_conversion_view"),
   (optNeStr (uom_type s (some new.translation_uom_auth_name) (some new.translation_uom_code)) "length",
    "insert on helmert_transformation violates constraint: translation_uom.type must be length"),
   (optNeStr (uom_type s new.rotation_uom_auth_name new.rotation_uom_code) "angle",
    "insert on helmert_transformation violates constraint: rotation_uom.type must be angle"),
   (optNeStr (uom_type s new.scale_difference_uom_auth_name new.scale_difference_uom_code) "scale",
    "insert on helmert_transformation violates constraint: scale_difference_uom.type must be scale"),
   (optNeStr (uom_type s new.rate_translation_uom_auth_name new.rate_translation_uom_code) "length",
    "insert on helmert_transformation violates constraint: rate_translation_uom.type must be length"),
   (optNeStr (uom_type s new.rate_rotation_uom_auth_name new.rate_rotation_uom_code) "angle",
    "insert on helmert_transformation violates constraint: rate_rotation_uom.type must be angle"),
   (optNeStr (uom_type s new.rate_scale_difference_uom_auth_name new.rate_scale_difference_uom_code) "scale",
    "insert on helmert_transformation violates constraint: rate_scale_difference_uom.type must be scale"),
   (optNeStr (uom_type s new.epoch_uom_auth_name new.epoch_uom_code) "time",
    "insert on helmert_transformation violates constraint: epoch_uom.type must be time"),
   (optNeStr (uom_type s new.pivot_uom_auth_name new.pivot_uom_code) "length",
    "insert on helmert_transformation violates constraint: pivot_uom.type must be length"),
   (helmert_source_deprecated_check s new,
    "insert on helmert_transformation violates constraint: source_crs must not be deprecated when helmert_transformation is not deprecated"),
   (helmert_target_deprecated_check s new,
    "insert on helmert_transformation violates constraint: target_crs must not be deprecated when helmert_transformation is not deprecated"),
   (area_deprecated_exists s (some new.area_of_use_auth_name) (some new.area_of_use_code) && !new.deprecated,
    "insert on helmert_transformation violates constraint: area_of_use must not be deprecated when helmert_transformation is not deprecated")]

def insert_helmert_transformation (s : Store) (new : HelmertTransformation) : Except String Store :=
  runChecksThen
    (if helmert_checks new && helmert_pk s new && helmert_fks s new then
      .ok { s with helmert_transformation_table := s.helmert_transformation_table ++ [new] }
    else .error "helmert_transformation constraint failed")
    (helmert_trigger_checks s new)

def grid_transformation_checks (new : GridTransformation) : Bool :=
  len1 new.auth_name && len1 new.code && len2 new.name &&
  len1 new.method_auth_name && len1 new.method_code && len2 new.method_name &&
  optNonneg new.accuracy

def grid_transformation_pk (s : Store) (new : GridTransformation) : Bool :=
  !(s.grid_transformation.any (fun r => r.auth_name == new.auth_name && r.code == new.code))

def grid_transformation_fks (s : Store) (new : GridTransformation) : Bool :=
  fk_geodetic_crs s new.interpolation_crs_auth_name new.interpolation_crs_code &&
  fk_area s (some new.area_of_use_auth_name) (some new.area_of_use_code)

/-- Deprecated-source rule of grid_transformation_insert_trigger; waived for ESRI. -/
def grid_source_deprecated_check (s : Store) (new : GridTransformation) : Bool :=
  crs_view_deprecated_has s new.source_crs_auth_name new.source_crs_code &&
  !new.deprecated && !(new.auth_name == "ESRI")

def grid_target_deprecated_check (s : Store) (new : GridTransformation) : Bool :=
  crs_view_deprecated_has s new.target_crs_auth_name new.target_crs_code &&
  !new.deprecated && !(new.auth_name == "ESRI")

def grid_transformation_trigger_checks (s : Store) (new : GridTransformation) : List (Bool × String) :=
  [(covwv_has s new.auth_name new.code,
    "insert on grid_transformation violates constraint: (auth_name, code) must not already exist in coordinate_operation_with_conversion_view"),
   (!(crs_view_has s new.source_crs_auth_name new.source_crs_code),
    "insert on grid_transformation violates constraint: source_crs(auth_name, code) not found"),
   (!(crs_view_has s new.target_crs_auth_name new.target_crs_code),
    "insert on grid_transformation violates constraint: target_crs(auth_name, code) not found"),
   (grid_source_deprecated_check s new,
    "insert on grid_transformation violates constraint: source_crs must not be deprecated when grid_transformation is not deprecated"),
   (grid_target_deprecated_check s new,
    "insert on grid_transformation violates constraint: target_crs must not be deprecated when grid_transformation is not deprecated"),
   (area_deprecated_exists s (some new.area_of_use_auth_name) (some new.area_of_use_code) && !new.deprecated,
    "insert on grid_transformation violates constraint: area_of_use must not be deprecated when grid_transformation is not deprecated")]

def insert_grid_transformation (s : Store) (new : GridTransformation) : Except String Store :=
  runChecksThen
    (if grid_transformation_checks new && grid_transformation_pk s new && grid_transformation_fks s new then
      .ok { s with grid_transformation := s.grid_transformation ++ [new] }
    else .error "grid_transformation constraint failed")
    (grid_transformation_trigger_checks s new)

def grid_packages_pk (s : Store) (new : GridPackages) : Bool :=
  !(s.grid_packages.any (fun r => r.package_name == new.package_name))

def grid_packages_trigger_checks (new : GridPackages) : List (Bool × String) :=
  [(new.open_license.isNone && new.url.isSome,
    "insert on grid_packages violates constraint: open_license must be set when url is not NULL"),
   (new.direct_download.isNone && new.url.isSome,
    "insert on grid_packages violates constraint: direct_download must be set when url is not NULL")]

def insert_grid_packages (s : Store) (new : GridPackages) : Except String Store :=
  runChecksThen
    (if grid_packages_pk s new then
      .ok { s with grid_packages := s.grid_packages ++ [new] }
    else .error "grid_packages constraint failed")
    (grid_packages_trigger_checks new)

def grid_alternatives_pk (s : Store) (new : GridAlternatives) : Bool :=
  !(s.grid_alternatives.any (fun r => r.original_grid_name == new.original_grid_name))

def grid_alternatives_trigger_checks (s : Store) (new : GridAlternatives) : List (Bool × String) :=
  [(!(["CTable2", "NTv1", "NTv2", "GTX"].contains new.proj_grid_format),
    "insert on grid_alternatives violates constraint: proj_grid_format must be one of CTable2, NTv1, NTv2, GTX"),
   (!(["hgridshift", "vgridshift"].contains new.proj_method),
    "insert on grid_alternatives violates constraint: proj_method must be one of hgridshift, vgridshift"),
   (new.proj_method != "hgridshift" && ["CTable2", "NTv1", "NTv2"].contains new.proj_grid_format,
    "insert on grid_alternatives violates constraint: proj_method must be hgridshift when proj_grid_format is CTable2, NTv1, NTv2"),
   (new.proj_method != "vgridshift" && ["GTX"].contains new.proj_grid_format,
    "insert on grid_alternatives violates constraint: proj_method must be vridshift when proj_grid_format is GTX"),
   (!(["null"].contains new.original_grid_name) &&
    !((s.grid_transformation.map GridTransformation.grid_name).contains new.original_grid_name),
    "insert on grid_alternatives violates constraint: original_grid_name must be referenced in grid_transformation.grid_name"),
   (new.original_grid_name == new.proj_grid_name && new.inverse_direction,
    "insert on grid_alternatives violates constraint: NEW.inverse_direction must be 0 when original_grid_name = proj_grid_name"),
   (new.package_name.isSome && new.url.isSome,
    "insert on grid_alternatives violates constraint: package_name must be NULL when url is not NULL"),
   (new.direct_download.isNone && new.url.isSome,
    "insert on grid_alternatives violates constraint: direct_download must be set when url is not NULL"),
   (new.open_license.isNone && new.url.isSome,
    "insert on grid_alternatives violates constraint: open_license must be set when url is not NULL")]

def insert_grid_alternatives (s : Store) (new : GridAlternatives) : Except String Store :=
  runChecksThen
    (if grid_alternatives_pk s new && fk_grid_packages s new.package_name then
      .ok { s with grid_alternatives := s.grid_alternatives ++ [new] }
    else .error "grid_alternatives constraint failed")
    (grid_alternatives_trigger_checks s new)

def other_transformation_checks (new : OtherTransformation) : Bool :=
  len1 new.auth_name && len1 new.code && len2 new.name &&
  len1 new.method_auth_name && len1 new.method_code && len2 new.method_name &&
  optNonneg new.accuracy

def other_transformation_pk (s : Store) (new : OtherTransformation) : Bool :=
  !(s.other_transformation.any (fun r => r.auth_name == new.auth_name && r.code == new.code))

def other_transformation_fks (s : Store) (new : OtherTransformation) : Bool :=
  fk_area s (some new.area_of_use_auth_name) (some new.area_of_use_code) &&
  fk_uom s new.param1_uom_auth_name new.param1_uom_code &&
  fk_uom s new.param2_uom_auth_name new.param2_uom_code &&
  fk_uom s new.param3_uom_auth_name new.param3_uom_code &&
  fk_uom s new.param4_uom_auth_name new.param4_uom_code &&
  fk_uom s new.param5_uom_auth_name new.param5_uom_code &&
  fk_uom s new.param6_uom_auth_name new.param6_uom_code &&
  fk_uom s new.param7_uom_auth_name new.param7_uom_code

/-- Deprecated-source rule of other_transformation_insert_trigger; waived for ESRI. -/
def other_source_deprecated_check (s : Store) (new : OtherTransformation) : Bool :=
  crs_view_deprecated_has s new.source_crs_auth_name new.source_crs_code &&
  !new.deprecated && !(new.auth_name == "ESRI")

def other_target_deprecated_check (s : Store) (new : OtherTransformation) : Bool :=
  crs_view_deprecated_has s new.target_crs_auth_name new.target_crs_code &&
  !new.deprecated && !(new.auth_name == "ESRI")

def other_transformation_trigger_checks (s : Store) (new : OtherTransformation) : List (Bool × String) :=
  [(covwv_has s new.auth_name new.code,
    "insert on other_transformation violates constraint: (auth_name, code) must not already exist in coordinate_operation_with_conversion_view"),
   (!(crs_view_has s new.source_crs_auth_name new.source_crs_code),
    "insert on other_transformation violates constraint: source_crs(auth_name, code) not found"),
   (!(crs_view_has s new.target_crs_auth_name new.target_crs_code),
    "insert on other_transformation violates constraint: target_crs(auth_name, code) not found"),
   (new.method_auth_name == "PROJ" && !(["PROJString", "WKT"].contains new.method_code),
    "insert on other_transformation violates constraint: method_code should be in (PROJString, WKT) when method_auth_name = PROJ"),
   (other_source_deprecated_check s new,
    "insert on other_transformation violates constraint: source_crs must not be deprecated when other_transformation is not deprecated"),
   (other_target_deprecated_check s new,
    "insert on other_transformation violates constraint: target_crs must not be deprecated when other_transformation is not deprecated"),
   (area_deprecated_exists s (some new.area_of_use_auth_name) (some new.area_of_use_code) && !new.deprecated,
    "insert on other_transformation violates constraint: area_of_use must not be deprecated when other_transformation is not deprecated")]

def insert_other_transformation (s : Store) (new : OtherTransformation) : Except String Store :=
  runChecksThen
    (if other_transformation_checks new && other_transformation_pk s new && other_transformation_fks s new then
      .ok { s with other_transformation := s.other_transformation ++ [new] }
    else .error "other_transformation constraint failed")
    (other_transformation_trigger_checks s new)

def concatenated_operation_checks (new : ConcatenatedOperation) : Bool :=
  len1 new.auth_name && len1 new.code && len2 new.name &&
  optNonneg new.accuracy

def concatenated_operation_pk (s : Store) (new : ConcatenatedOperation) : Bool :=
  !(s.concatenated_operation.any (fun r => r.auth_name == new.auth_name && r.code == new.code))

/-- Deprecated-source rule of concatenated_operation_insert_trigger; waived for ESRI. -/
def concat_source_deprecated_check (s : Store) (new : ConcatenatedOperation) : Bool :=
  crs_view_deprecated_has s new.source_crs_auth_name new.source_crs_code &&
  !new.deprecated && !(new.auth_name == "ESRI")

def concat_target_deprecated_check (s : Store) (new : ConcatenatedOperation) : Bool :=
  crs_view_deprecated_has s new.target_crs_auth_name new.target_crs_code &&
  !new.deprecated && !(new.auth_name == "ESRI")

def concatenated_operation_trigger_checks (s : Store) (new : ConcatenatedOperation) : List (Bool × String) :=
  [(covwv_has s new.auth_name new.code,
    "insert on concatenated_operation violates constraint: (auth_name, code) must not already exist in coordinate_operation_with_conversion_view"),
   (!(covwv_has s new.step1_auth_name new.step1_code),
    "insert on concatenated_operation violates constraint: step1(auth_name, code) must already exist in coordinate_operation_with_conversion_view"),
   (!(covwv_has s new.step2_auth_name new.step2_code),
    "insert on concatenated_operation violates constraint: step2(auth_name, code) must already exist in coordinate_operation_with_conversion_view"),
   (new.step3_auth_name.isSome && !(covwv_has_opt s new.step3_auth_name new.step3_code),
    "insert on concatenated_operation violates constraint: step3(auth_name, code) must already exist in coordinate_operation_with_conversion_view"),
   (!(crs_view_has s new.source_crs_auth_name new.source_crs_code),
    "insert on concatenated_operation violates constraint: source_crs(auth_name, code) not found"),
   (!(crs_view_has s new.target_crs_auth_name new.target_crs_code),
    "insert on concatenated_operation violates constraint: target_crs(auth_name, code) not found"),
   (concat_op_has s new.step1_auth_name new.step1_code,
    "insert on concatenated_operation violates constraint: step1 should not be a concatenated_operation"),
   (concat_op_has s new.step2_auth_name new.step2_code,
    "insert on concatenated_operation violates constraint: step2 should not be a concatenated_operation"),
   (concat_op_has_opt s new.step3_auth_name new.step3_code,
    "insert on concatenated_operation violates constraint: step3 should not be a concatenated_operation"),
   (concat_source_deprecated_check s new,
    "insert on concatenated_operation violates constraint: source_crs must not be deprecated when concatenated_operation is not deprecated"),
   (concat_target_deprecated_check s new,
    "insert on concatenated_operation violates constraint: target_crs must not be deprecated when concatenated_operation is not deprecated"),
   (area_deprecated_exists s (some new.area_of_use_auth_name) (some new.area_of_use_code) && !new.deprecated,
    "insert on concatenated_operation violates constraint: area_of_use must not be deprecated when concatenated_operation is not deprecated")]

def insert_concatenated_operation (s : Store) (new : ConcatenatedOperation) : Except String Store :=
  runChecksThen
    (if concatenated_operation_checks new && concatenated_operation_pk s new &&
        fk_area s (some new.area_of_use_auth_name) (some new.area_of_use_code) then
      .ok { s with concatenated_operation := s.concatenated_operation ++ [new] }
    else .error "concatenated_operation constraint failed")
    (concatenated_operation_trigger_checks s new)

/-! ### Reachable states: the bulk-load phase is a sequence of admitted inserts -/

/-- One admitted insert into any table of the schema. -/
inductive Step : Store → Store → Prop
  | unit_of_measure (s : Store) (new : UnitOfMeasure) (s' : Store) :
      insert_unit_of_measure s new = .ok s' → Step s s'
  | celestial_body (s : Store) (new : CelestialBody) (s' : Store) :
      insert_celestial_body s new = .ok s' → Step s s'
  | ellipsoid (s : Store) (new : Ellipsoid) (s' : Store) :
      insert_ellipsoid s new = .ok s' → Step s s'
  | area (s : Store) (new : Area) (s' : Store) :
      insert_area s new = .ok s' → Step s s'
  | prime_meridian (s : Store) (new : PrimeMeridian) (s' : Store) :
      insert_prime_meridian s new = .ok s' → Step s s'
  | geodetic_datum (s : Store) (new : GeodeticDatum) (s' : Store) :
      insert_geodetic_datum s new = .ok s' → Step s s'
  | vertical_datum (s : Store) (new : VerticalDatum) (s' : Store) :
      insert_vertical_datum s new = .ok s' → Step s s'
  | coordinate_system (s : Store) (new : CoordinateSystem) (s' : Store) :
      insert_coordinate_system s new = .ok s' → Step s s'
  | geodetic_crs (s : Store) (new : GeodeticCrs) (s' : Store) :
      insert_geodetic_crs s new = .ok s' → Step s s'
  | vertical_crs (s : Store) (new : VerticalCrs) (s' : Store) :
      insert_vertical_crs s new = .ok s' → Step s s'
  | projected_crs (s : Store) (new : ProjectedCrs) (s' : Store) :
      insert_projected_crs s new = .ok s' → Step s s'
  | compound_crs (s : Store) (new : CompoundCrs) (s' : Store) :
      insert_compound_crs s new = .ok s' → Step s s'
  | conversion_method (s : Store) (new : ConversionMethod) (s' : Store) :
      insert_conversion_method s new = .ok s' → Step s s'
  | conversion_table (s : Store) (new : ConversionTable) (s' : Store) :
      insert_conversion_table s new = .ok s' → Step s s'
  | coordinate_operation_method (s : Store) (new : CoordinateOperationMethod) (s' : Store) :
      insert_coordinate_operation_method s new = .ok s' → Step s s'
  | helmert_transformation (s : Store) (new : HelmertTransformation) (s' : Store) :
      insert_helmert_transformation s new = .ok s' → Step s s'
  | grid_transformation (s : Store) (new : GridTransformation) (s' : Store) :
      insert_grid_transformation s new = .ok s' → Step s s'
  | grid_packages (s : Store) (new : GridPackages) (s' : Store) :
      insert_grid_packages s new = .ok s' → Step s s'
  | grid_alternatives (s : Store) (new : GridAlternatives) (s' : Store) :
      insert_grid_alternatives s new = .ok s' → Step s s'
  | other_transformation (s : Store) (new : OtherTransformation) (s' : Store) :
      insert_other_transformation s new = .ok s' → Step s s'
  | concatenated_operation (s : Store) (new : ConcatenatedOperation) (s' : Store) :
      insert_concatenated_operation s new = .ok s' → Step s s'

/-- Store states reachable from the freshly created schema by admitted inserts. -/
inductive Reachable : Store → Prop
  | init : Reachable initialStore
  | step {s s' : Store} : Reachable s → Step s s' → Reachable s'

/-- How many of the four CRS kinds hold a record keyed (a, c). -/
def crsKindCount (s : Store) (a c : String) : Nat :=
  (s.geodetic_crs.any (fun r => r.auth_name == a && r.code == c)).toNat +
  (s.projected_crs.any (fun r => r.auth_name == a && r.code == c)).toNat +
  (s.vertical_crs.any (fun r => r.auth_name == a && r.code == c)).toNat +
  (s.compound_crs.any (fun r => r.auth_name == a && r.code == c)).toNat

/-- How many of the five coordinate-operation kinds hold a record keyed (a, c). -/
def opKindCount (s : Store) (a c : String) : Nat :=
  (s.conversion_table.any (fun r => r.auth_name == a && r.code == c)).toNat +
  (s.helmert_transformation_table.any (fun r => r.auth_name == a && r.code == c)).toNat +
  (s.grid_transformation.any (fun r => r.auth_name == a && r.code == c)).toNat +
  (s.other_transformation.any (fun r => r.auth_name == a && r.code == c)).toNat +
  (s.concatenated_operation.any (fun r => r.auth_name == a && r.code == c)).toNat

def NamespacesDisjoint (s : Store) : Prop :=
  ∀ a c : String, crsKindCount s a c ≤ 1 ∧ opKindCount s a c ≤ 1


deriving instance DecidableEq for Except

/-! ### Concrete data used to exercise the inserts -/

def uomMetre : UnitOfMeasure :=
  { auth_name := "EPSG", code := "9001", name := "metre", type := "length",
    conv_factor := some 1, deprecated := false }

def uomDegree : UnitOfMeasure :=
  { auth_name := "EPSG", code := "9102", name := "degree", type := "angle",
    conv_factor := some 1, deprecated := false }

def earthBody : CelestialBody :=
  { auth_name := "PROJ", code := "EARTH", name := "Earth", semi_major_axis := 6378137 }

def areaWorld : Area :=
  { auth_name := "EPSG", code := "1262", name := "World", description := "World",
    south_lat := some (-90), north_lat := some 90, west_lon := some (-180), east_lon := some 180,
    deprecated := false }

def areaDeprecated : Area :=
  { areaWorld with code := "1263", name := "Old area", deprecated := true }

def ellipsoidWGS84 : Ellipsoid :=
  { auth_name := "EPSG", code := "7030", name := "WGS 84", description := none,
    celestial_body_auth_name := "PROJ", celestial_body_code := "EARTH",
    semi_major_axis := 6378137, uom_auth_name := "EPSG", uom_code := "9001",
    inv_flattening := some 298, semi_minor_axis := none, deprecated := false }

def pmGreenwich : PrimeMeridian :=
  { auth_name := "EPSG", code := "8901", name := "Greenwich", longitude := 0,
    uom_auth_name := "EPSG", uom_code := "9102", deprecated := false }

def datumDeprecated : GeodeticDatum :=
  { auth_name := "EPSG", code := "6001", name := "Old datum", description := none, scope := none,
    ellipsoid_auth_name := "EPSG", ellipsoid_code := "7030",
    prime_meridian_auth_name := "EPSG", prime_meridian_code := "8901",
    area_of_use_auth_name := "EPSG", area_of_use_code := "1262", deprecated := true }

def vdatumDeprecated : VerticalDatum :=
  { auth_name := "EPSG", code := "5100", name := "Old vertical datum", description := none,
    scope := none, area_of_use_auth_name := "EPSG", area_of_use_code := "1262",
    deprecated := true }

def csEllipsoidal2 : CoordinateSystem :=
  { auth_name := "EPSG", code := "6422", type := "ellipsoidal", dimension := 2 }

def csEllipsoidal3 : CoordinateSystem :=
  { auth_name := "EPSG", code := "6423", type := "ellipsoidal", dimension := 3 }

def csVertical1 : CoordinateSystem :=
  { auth_name := "EPSG", code := "6499", type := "vertical", dimension := 1 }

/-- A store populated with leaf entities, including a deprecated geodetic
datum EPSG:6001, a deprecated area EPSG:1263 and a deprecated vertical datum
EPSG:5100. -/
def baseStore : Store :=
  { unit_of_measure := [uomMetre, uomDegree]
    celestial_body := [earthBody]
    ellipsoid := [ellipsoidWGS84]
    area := [areaWorld, areaDeprecated]
    prime_meridian := [pmGreenwich]
    geodetic_datum := [datumDeprecated]
    vertical_datum := [vdatumDeprecated]
    coordinate_system := [csEllipsoidal2, csEllipsoidal3, csVertical1]
    geodetic_crs := []
    vertical_crs := []
    projected_crs := []
    compound_crs := []
    conversion_method := []
    conversion_table := []
    coordinate_operation_method := []
    helmert_transformation_table := []
    grid_transformation := []
    grid_packages := []
    grid_alternatives := []
    other_transformation := []
    concatenated_operation := [] }

/-- C1 failing input: structured (text_definition NULL), not deprecated, yet
referencing the deprecated datum EPSG:6001 and the deprecated area EPSG:1263. -/
def crsBug : GeodeticCrs :=
  { auth_name := "EPSG", code := "4001", name := "Bug CRS", description := none, scope := none,
    type := "geographic 2D",
    coordinate_system_auth_name := some "EPSG", coordinate_system_code := some "6422",
    datum_auth_name := some "EPSG", datum_code := some "6001",
    area_of_use_auth_name := some "EPSG", area_of_use_code := some "1263",
    text_definition := none, deprecated := false }

def baseStoreWithBug : Store := { baseStore with geodetic_crs := [crsBug] }

/-- C9 counterexample input: deprecated geographic 2D CRS on an ellipsoidal
coordinate system of dimension 3. -/
def crsDep2D3 : GeodeticCrs :=
  { crsBug with
    code := "4003"
    name := "Deprecated 2D"
    coordinate_system_code := some "6423"
    area_of_use_code := some "1262"
    deprecated := true }

def baseStoreWith2D3 : Store := { baseStore with geodetic_crs := [crsDep2D3] }

/-- A well-formed structured geographic 2D CRS. -/
def crsOk2D : GeodeticCrs :=
  { crsBug with code := "4004", name := "Good 2D", area_of_use_code := some "1262" }

def baseStoreWithOk2D : Store := { baseStore with geodetic_crs := [crsOk2D] }

/-- C2 failing slot: param1_value is set while the param1 ref and unit are NULL. -/
def convSlotGap : ConversionTable :=
  { auth_name := "EPSG", code := "7100", name := "Partial conv", description := none, scope := none,
    area_of_use_auth_name := "EPSG", area_of_use_code := "1262",
    method_auth_name := none, method_code := none,
    param1_auth_name := none, param1_code := none, param1_value := some 1,
    param1_uom_auth_name := none, param1_uom_code := none,
    param2_auth_name := none, param2_code := none, param2_value := none,
    param2_uom_auth_name := none, param2_uom_code := none,
    param3_auth_name := none, param3_code := none, param3_value := none,
    param3_uom_auth_name := none, param3_uom_code := none,
    param4_auth_name := none, param4_code := none, param4_value := none,
    param4_uom_auth_name := none, param4_uom_code := none,
    param5_auth_name := none, param5_code := none, param5_value := none,
    param5_uom_auth_name := none, param5_uom_code := none,
    param6_auth_name := none, param6_code := none, param6_value := none,
    param6_uom_auth_name := none, param6_uom_code := none,
    param7_auth_name := none, param7_code := none, param7_value := none,
    param7_uom_auth_name := none, param7_uom_code := none,
    deprecated := false }

def baseStoreWithConv : Store := { baseStore with conversion_table := [convSlotGap] }

def ellipsoidClarke : Ellipsoid :=
  { ellipsoidWGS84 with code := "7012", name := "Clarke 1880", inv_flattening := some 293 }

def baseStoreWithClarke : Store :=
  { baseStore with ellipsoid := [ellipsoidWGS84, ellipsoidClarke] }

def ellipsoidBothNone : Ellipsoid :=
  { ellipsoidWGS84 with
    code := "7200"
    name := "No shape"
    inv_flattening := none
    semi_minor_axis := none }

def areaOkNew : Area :=
  { areaWorld with
    code := "2000"
    name := "Test area"
    south_lat := some 0
    north_lat := some 10
    west_lon := some 5
    east_lon := some 6 }

def baseStoreWithArea : Store :=
  { baseStore with area := [areaWorld, areaDeprecated, areaOkNew] }

def areaBad : Area :=
  { areaWorld with code := "2001", name := "Bad area", south_lat := some 10, north_lat := some 5 }

def vrsNew : VerticalCrs :=
  { auth_name := "EPSG", code := "5701", name := "Vertical CRS", description := none, scope := none,
    coordinate_system_auth_name := "EPSG", coordinate_system_code := "6499",
    datum_auth_name := "EPSG", datum_code := "5100",
    area_of_use_auth_name := "EPSG", area_of_use_code := "1262", deprecated := false }

def baseStoreWithVcrs : Store := { baseStore with vertical_crs := [vrsNew] }

/-- Text-definition based geodetic CRS usable from the empty schema. -/
def crsSourceA : GeodeticCrs :=
  { auth_name := "EPSG", code := "4100", name := "CRS A", description := none, scope := none,
    type := "geographic 2D",
    coordinate_system_auth_name := none, coordinate_system_code := none,
    datum_auth_name := none, datum_code := none,
    area_of_use_auth_name := none, area_of_use_code := none,
    text_definition := some "+proj=longlat +a", deprecated := false }

def crsTargetB : GeodeticCrs :=
  { crsSourceA with code := "4101", name := "CRS B" }

def crsDeprecatedG : GeodeticCrs :=
  { crsSourceA with code := "4002", name := "Dead CRS", deprecated := true }

def storeG : Store := { initialStore with geodetic_crs := [crsSourceA] }

def convStep1 : ConversionTable :=
  { convSlotGap with code := "7001", name := "Step one", param1_value := none }

def convStep2 : ConversionTable :=
  { convStep1 with code := "7002", name := "Step two" }

def concatExisting : ConcatenatedOperation :=
  { auth_name := "EPSG", code := "8000", name := "Existing concat", description := none,
    scope := none,
    source_crs_auth_name := "EPSG", source_crs_code := "4100",
    target_crs_auth_name := "EPSG", target_crs_code := "4101",
    area_of_use_auth_name := "EPSG", area_of_use_code := "1262",
    accuracy := some 1,
    step1_auth_name := "EPSG", step1_code := "7001",
    step2_auth_name := "EPSG", step2_code := "7002",
    step3_auth_name := none, step3_code := none,
    operation_version := none, deprecated := false }

/-- baseStore extended with CRS records and coordinate operations. -/
def opStore : Store :=
  { baseStore with
    geodetic_crs := [crsSourceA, crsTargetB, crsDeprecatedG]
    conversion_table := [convStep1, convStep2]
    concatenated_operation := [concatExisting] }

def concatNew : ConcatenatedOperation :=
  { concatExisting with code := "8001", name := "New concat" }

def opStoreWithConcat : Store :=
  { opStore with concatenated_operation := [concatExisting, concatNew] }

/-- A concatenated operation whose step1 references the existing concatenated
operation EPSG:8000: must be rejected. -/
def concatBad : ConcatenatedOperation :=
  { concatExisting with code := "8002", name := "Bad concat", step1_code := "8000" }

def gaNull : GridAlternatives :=
  { original_grid_name := "null", proj_grid_name := "null_proj", proj_grid_format := "NTv2",
    proj_method := "hgridshift", inverse_direction := false, package_name := none,
    url := none, direct_download := none, open_license := none, directory := none }

def baseStoreWithGa : Store := { baseStore with grid_alternatives := [gaNull] }

def gaMismatch : GridAlternatives :=
  { gaNull with original_grid_name := "null2", proj_method := "vgridshift" }

def gaMismatchGtx : GridAlternatives :=
  { gaNull with
    original_grid_name := "null3"
    proj_grid_format := "GTX"
    proj_method := "hgridshift" }

/-- An ESRI-authored helmert transformation whose source CRS EPSG:4002 is
deprecated while the record itself is not. -/
def helmertEsri : HelmertTransformation :=
  { auth_name := "ESRI", code := "108001", name := "ESRI transform", description := none,
    scope := none, method_auth_name := "EPSG", method_code := "9603",
    source_crs_auth_name := "EPSG", source_crs_code := "4002",
    target_crs_auth_name := "EPSG", target_crs_code := "4100",
    area_of_use_auth_name := "EPSG", area_of_use_code := "1262",
    accuracy := some 1, tx := 0, ty := 0, tz := 0,
    translation_uom_auth_name := "EPSG", translation_uom_code := "9001",
    rx := none, ry := none, rz := none, rotation_uom_auth_name := none, rotation_uom_code := none,
    scale_difference := none, scale_difference_uom_auth_name := none, scale_difference_uom_code := none,
    rate_tx := none, rate_ty := none, rate_tz := none,
    rate_translation_uom_auth_name := none, rate_translation_uom_code := none,
    rate_rx := none, rate_ry := none, rate_rz := none,
    rate_rotation_uom_auth_name := none, rate_rotation_uom_code := none,
    rate_scale_difference := none, rate_scale_difference_uom_auth_name := none,
    rate_scale_difference_uom_code := none,
    epoch := none, epoch_uom_auth_name := none, epoch_uom_code := none,
    px := none, py := none, pz := none, pivot_uom_auth_name := none, pivot_uom_code := none,
    operation_version := none, deprecated := false }

/-- An ESRI-authored projected CRS whose base geodetic CRS EPSG:4002 is
deprecated while the record itself is not. -/
def projEsri : ProjectedCrs :=
  { auth_name := "ESRI", code := "102001", name := "ESRI projected", description := none,
    scope := none,
    coordinate_system_auth_name := none, coordinate_system_code := none,
    geodetic_crs_auth_name := some "EPSG", geodetic_crs_code := some "4002",
    conversion_auth_name := none, conversion_code := none,
    area_of_use_auth_name := none, area_of_use_code := none,
    text_definition := some "+proj=merc +a", deprecated := false }

/-- Whether an insert was admitted. -/
def insertAdmitted : Except String Store → Bool
  | .ok _ => true
  | .error _ => false

/-- Clears the seven parameter (ref, value) slots of a conversion row, leaving
the unit references untouched. -/
def clearParamRefs (c : ConversionTable) : ConversionTable :=
  { c with
    param1_auth_name := none, param1_code := none, param1_value := none,
    param2_auth_name := none, param2_code := none, param2_value := none,
    param3_auth_name := none, param3_code := none, param3_value := none,
    param4_auth_name := none, param4_code := none, param4_value := none,
    param5_auth_name := none, param5_code := none, param5_value := none,
    param6_auth_name := none, param6_code := none, param6_value := none,
    param7_auth_name := none, param7_code := none, param7_value := none }

lemma runChecksThen_ok {k : Except String Store} {l : List (Bool × String)} {s' : Store}
    (h : runChecksThen k l = .ok s') : (∀ p ∈ l, p.1 = false) ∧ k = .ok s' := by
  induction l with
  | nil => exact ⟨fun p hp => absurd hp (List.not_mem_nil p), h⟩
  | cons q rest ih =>
      obtain ⟨b, m⟩ := q
      unfold runChecksThen at h
      split at h
      · exact Except.noConfusion h
      · next hb =>
          obtain ⟨hall, hk⟩ := ih h
          refine ⟨?_, hk⟩
          intro p hp
          rcases List.mem_cons.mp hp with rfl | hmem
          · exact Bool.eq_false_iff.mpr hb
          · exact hall p hmem

lemma runChecksThen_all_false {k : Except String Store} {l : List (Bool × String)}
    (h : ∀ p ∈ l, p.1 = false) : runChecksThen k l = k := by
  induction l with
  | nil => rfl
  | cons q rest ih =>
      obtain ⟨b, m⟩ := q
      have hb : b = false := h (b, m) (List.mem_cons_self _ _)
      unfold runChecksThen
      rw [hb]
      simp only [Bool.false_eq_true, if_false]
      exact ih (fun p hp => h p (List.mem_cons_of_mem _ hp))

lemma crs_view_has_false {s : Store} {a c : String} (h : crs_view_has s a c = false) :
    s.geodetic_crs.any (fun r => r.auth_name == a && r.code == c) = false ∧
    s.projected_crs.any (fun r => r.auth_name == a && r.code == c) = false ∧
    s.vertical_crs.any (fun r => r.auth_name == a && r.code == c) = false ∧
    s.compound_crs.any (fun r => r.auth_name == a && r.code == c) = false := by
  unfold crs_view_has at h
  simp only [Bool.or_eq_false_iff] at h
  exact ⟨h.1.1.1, h.1.1.2, h.1.2, h.2⟩

lemma covwv_has_false {s : Store} {a c : String} (h : covwv_has s a c = false) :
    s.grid_transformation.any (fun r => r.auth_name == a && r.code == c) = false ∧
    s.helmert_transformation_table.any (fun r => r.auth_name == a && r.code == c) = false ∧
    s.other_transformation.any (fun r => r.auth_name == a && r.code == c) = false ∧
    s.concatenated_operation.any (fun r => r.auth_name == a && r.code == c) = false ∧
    s.conversion_table.any (fun r => r.auth_name == a && r.code == c) = false := by
  unfold covwv_has at h
  simp only [Bool.or_eq_false_iff] at h
  exact ⟨h.1.1.1.1, h.1.1.1.2, h.1.1.2, h.1.2, h.2⟩

lemma crsKindCount_geodetic_append {s : Store} {new : GeodeticCrs}
    (hu : crs_view_has s new.auth_name new.code = false)
    (hinv : ∀ a c, crsKindCount s a c ≤ 1) (a c : String) :
    crsKindCount { s with geodetic_crs := s.geodetic_crs ++ [new] } a c ≤ 1 := by
  obtain ⟨h1, h2, h3, h4⟩ := crs_view_has_false hu
  by_cases hk : (new.auth_name == a && new.code == c) = true
  · obtain ⟨ha, hc⟩ := Bool.and_eq_true_iff.mp hk
    have ha' : new.auth_name = a := by simpa using ha
    have hc' : new.code = c := by simpa using hc
    subst ha'
    subst hc'
    simp [crsKindCount, List.any_append, h1, h2, h3, h4]
  · have hk' : (new.auth_name == a && new.code == c) = false := Bool.eq_false_iff.mpr hk
    simpa [crsKindCount, List.any_append, hk'] using hinv a c

lemma crsKindCount_projected_append {s : Store} {new : ProjectedCrs}
    (hu : crs_view_has s new.auth_name new.code = false)
    (hinv : ∀ a c, crsKindCount s a c ≤ 1) (a c : String) :
    crsKindCount { s with projected_crs := s.projected_crs ++ [new] } a c ≤ 1 := by
  obtain ⟨h1, h2, h3, h4⟩ := crs_view_has_false hu
  by_cases hk : (new.auth_name == a && new.code == c) = true
  · obtain ⟨ha, hc⟩ := Bool.and_eq_true_iff.mp hk
    have ha' : new.auth_name = a := by simpa using ha
    have hc' : new.code = c := by simpa using hc
    subst ha'
    subst hc'
    simp [crsKindCount, List.any_append, h1, h2, h3, h4]
  · have hk' : (new.auth_name == a && new.code == c) = false := Bool.eq_false_iff.mpr hk
    simpa [crsKindCount, List.any_append, hk'] using hinv a c

lemma crsKindCount_vertical_append {s : Store} {new : VerticalCrs}
    (hu : crs_view_has s new.auth_name new.code = false)
    (hinv : ∀ a c, crsKindCount s a c ≤ 1) (a c : String) :
    crsKindCount { s with vertical_crs := s.vertical_crs ++ [new] } a c ≤ 1 := by
  obtain ⟨h1, h2, h3, h4⟩ := crs_view_has_false hu
  by_cases hk : (new.auth_name == a && new.code == c) = true
  · obtain ⟨ha, hc⟩ := Bool.and_eq_true_iff.mp hk
    have ha' : new.auth_name = a := by simpa using ha
    have hc' : new.code = c := by simpa using hc
    subst ha'
    subst hc'
    simp [crsKindCount, List.any_append, h1, h2, h3, h4]
  · have hk' : (new.auth_name == a && new.code == c) = false := Bool.eq_false_iff.mpr hk
    simpa [crsKindCount, List.any_append, hk'] using hinv a c

lemma crsKindCount_compound_append {s : Store} {new : CompoundCrs}
    (hu : crs_view_has s new.auth_name new.code = false)
    (hinv : ∀ a c, crsKindCount s a c ≤ 1) (a c : String) :
    crsKindCount { s with compound_crs := s.compound_crs ++ [new] } a c ≤ 1 := by
  obtain ⟨h1, h2, h3, h4⟩ := crs_view_has_false hu
  by_cases hk : (new.auth_name == a && new.code == c) = true
  · obtain ⟨ha, hc⟩ := Bool.and_eq_true_iff.mp hk
    have ha' : new.auth_name = a := by simpa using ha
    have hc' : new.code = c := by simpa using hc
    subst ha'
    subst hc'
    simp [crsKindCount, List.any_append, h1, h2, h3, h4]
  · have hk' : (new.auth_name == a && new.code == c) = false := Bool.eq_false_iff.mpr hk
    simpa [crsKindCount, List.any_append, hk'] using hinv a c

lemma opKindCount_conversion_append {s : Store} {new : ConversionTable}
    (hu : covwv_has s new.auth_name new.code = false)
    (hinv : ∀ a c, opKindCount s a c ≤ 1) (a c : String) :
    opKindCount { s with conversion_table := s.conversion_table ++ [new] } a c ≤ 1 := by
  obtain ⟨h1, h2, h3, h4, h5⟩ := covwv_has_false hu
  by_cases hk : (new.auth_name == a && new.code == c) = true
  · obtain ⟨ha, hc⟩ := Bool.and_eq_true_iff.mp hk
    have ha' : new.auth_name = a := by simpa using ha
    have hc' : new.code = c := by simpa using hc
    subst ha'
    subst hc'
    simp [opKindCount, List.any_append, h1, h2, h3, h4, h5]
  · have hk' : (new.auth_name == a && new.code == c) = false := Bool.eq_false_iff.mpr hk
    simpa [opKindCount, List.any_append, hk'] using hinv a c

lemma opKindCount_helmert_append {s : Store} {new : HelmertTransformation}
    (hu : covwv_has s new.auth_name new.code = false)
    (hinv : ∀ a c, opKindCount s a c ≤ 1) (a c : String) :
    opKindCount { s with helmert_transformation_table := s.helmert_transformation_table ++ [new] } a c ≤ 1 := by
  obtain ⟨h1, h2, h3, h4, h5⟩ := covwv_has_false hu
  by_cases hk : (new.auth_name == a && new.code == c) = true
  · obtain ⟨ha, hc⟩ := Bool.and_eq_true_iff.mp hk
    have ha' : new.auth_name = a := by simpa using ha
    have hc' : new.code = c := by simpa using hc
    subst ha'
    subst hc'
    simp [opKindCount, List.any_append, h1, h2, h3, h4, h5]
  · have hk' : (new.auth_name == a && new.code == c) = false := Bool.eq_false_iff.mpr hk
    simpa [opKindCount, List.any_append, hk'] using hinv a c

lemma opKindCount_grid_append {s : Store} {new : GridTransformation}
    (hu : covwv_has s new.auth_name new.code = false)
    (hinv : ∀ a c, opKindCount s a c ≤ 1) (a c : String) :
    opKindCount { s with grid_transformation := s.grid_transformation ++ [new] } a c ≤ 1 := by
  obtain ⟨h1, h2, h3, h4, h5⟩ := covwv_has_false hu
  by_cases hk : (new.auth_name == a && new.code == c) = true
  · obtain ⟨ha, hc⟩ := Bool.and_eq_true_iff.mp hk
    have ha' : new.auth_name = a := by simpa using ha
    have hc' : new.code = c := by simpa using hc
    subst ha'
    subst hc'
    simp [opKindCount, List.any_append, h1, h2, h3, h4, h5]
  · have hk' : (new.auth_name == a && new.code == c) = false := Bool.eq_false_iff.mpr hk
    simpa [opKindCount, List.any_append, hk'] using hinv a c

lemma opKindCount_other_append {s : Store} {new : OtherTransformation}
    (hu : covwv_has s new.auth_name new.code = false)
    (hinv : ∀ a c, opKindCount s a c ≤ 1) (a c : String) :
    opKindCount { s with other_transformation := s.other_transformation ++ [new] } a c ≤ 1 := by
  obtain ⟨h1, h2, h3, h4, h5⟩ := covwv_has_false hu
  by_cases hk : (new.auth_name == a && new.code == c) = true
  · obtain ⟨ha, hc⟩ := Bool.and_eq_true_iff.mp hk
    have ha' : new.auth_name = a := by simpa using ha
    have hc' : new.code = c := by simpa using hc
    subst ha'
    subst hc'
    simp [opKindCount, List.any_append, h1, h2, h3, h4, h5]
  · have hk' : (new.auth_name == a && new.code == c) = false := Bool.eq_false_iff.mpr hk
    simpa [opKindCount, List.any_append, hk'] using hinv a c

lemma opKindCount_concat_append {s : Store} {new : ConcatenatedOperation}
    (hu : covwv_has s new.auth_name new.code = false)
    (hinv : ∀ a c, opKindCount s a c ≤ 1) (a c : String) :
    opKindCount { s with concatenated_operation := s.concatenated_operation ++ [new] } a c ≤ 1 := by
  obtain ⟨h1, h2, h3, h4, h5⟩ := covwv_has_false hu
  by_cases hk : (new.auth_name == a && new.code == c) = true
  · obtain ⟨ha, hc⟩ := Bool.and_eq_true_iff.mp hk
    have ha' : new.auth_name = a := by simpa using ha
    have hc' : new.code = c := by simpa using hc
    subst ha'
    subst hc'
    simp [opKindCount, List.any_append, h1, h2, h3, h4, h5]
  · have hk' : (new.auth_name == a && new.code == c) = false := Bool.eq_false_iff.mpr hk
    simpa [opKindCount, List.any_append, hk'] using hinv a c

lemma preserve_unit_of_measure {s : Store} {new : UnitOfMeasure} {s' : Store}
    (hs : NamespacesDisjoint s) (h : insert_unit_of_measure s new = .ok s') :
    NamespacesDisjoint s' := by
  unfold insert_unit_of_measure at h
  split at h
  · injection h with h
    subst h
    exact hs
  · exact Except.noConfusion h

lemma preserve_celestial_body {s : Store} {new : CelestialBody} {s' : Store}
    (hs : NamespacesDisjoint s) (h : insert_celestial_body s new = .ok s') :
    NamespacesDisjoint s' := by
  unfold insert_celestial_body at h
  split at h
  · injection h with h
    subst h
    exact hs
  · exact Except.noConfusion h

lemma preserve_coordinate_operation_method {s : Store} {new : CoordinateOperationMethod} {s' : Store}
    (hs : NamespacesDisjoint s) (h : insert_coordinate_operation_method s new = .ok s') :
    NamespacesDisjoint s' := by
  unfold insert_coordinate_operation_method at h
  split at h
  · injection h with h
    subst h
    exact hs
  · exact Except.noConfusion h

lemma preserve_ellipsoid {s : Store} {new : Ellipsoid} {s' : Store}
    (hs : NamespacesDisjoint s) (h : insert_ellipsoid s new = .ok s') :
    NamespacesDisjoint s' := by
  unfold insert_ellipsoid at h
  obtain ⟨-, hk⟩ := runChecksThen_ok h
  split at hk
  · injection hk with hk
    subst hk
    exact hs
  · exact Except.noConfusion hk

lemma preserve_area {s : Store} {new : Area} {s' : Store}
    (hs : NamespacesDisjoint s) (h : insert_area s new = .ok s') :
    NamespacesDisjoint s' := by
  unfold insert_area at h
  obtain ⟨-, hk⟩ := runChecksThen_ok h
  split at hk
  · injection hk with hk
    subst hk
    exact hs
  · exact Except.noConfusion hk

lemma preserve_prime_meridian {s : Store} {new : PrimeMeridian} {s' : Store}
    (hs : NamespacesDisjoint s) (h : insert_prime_meridian s new = .ok s') :
    NamespacesDisjoint s' := by
  unfold insert_prime_meridian at h
  obtain ⟨-, hk⟩ := runChecksThen_ok h
  split at hk
  · injection hk with hk
    subst hk
    exact hs
  · exact Except.noConfusion hk

lemma preserve_geodetic_datum {s : Store} {new : GeodeticDatum} {s' : Store}
    (hs : NamespacesDisjoint s) (h : insert_geodetic_datum s new = .ok s') :
    NamespacesDisjoint s' := by
  unfold insert_geodetic_datum at h
  obtain ⟨-, hk⟩ := runChecksThen_ok h
  split at hk
  · injection hk with hk
    subst hk
    exact hs
  · exact Except.noConfusion hk

lemma preserve_vertical_datum {s : Store} {new : VerticalDatum} {s' : Store}
    (hs : NamespacesDisjoint s) (h : insert_vertical_datum s new = .ok s') :
    NamespacesDisjoint s' := by
  unfold insert_vertical_datum at h
  obtain ⟨-, hk⟩ := runChecksThen_ok h
  split at hk
  · injection hk with hk
    subst hk
    exact hs
  · exact Except.noConfusion hk

lemma preserve_coordinate_system {s : Store} {new : CoordinateSystem} {s' : Store}
    (hs : NamespacesDisjoint s) (h : insert_coordinate_system s new = .ok s') :
    NamespacesDisjoint s' := by
  unfold insert_coordinate_system at h
  obtain ⟨-, hk⟩ := runChecksThen_ok h
  split at hk
  · injection hk with hk
    subst hk
    exact hs
  · exact Except.noConfusion hk

lemma preserve_conversion_method {s : Store} {new : ConversionMethod} {s' : Store}
    (hs : NamespacesDisjoint s) (h : insert_conversion_method s new = .ok s') :
    NamespacesDisjoint s' := by
  unfold insert_conversion_method at h
  obtain ⟨-, hk⟩ := runChecksThen_ok h
  split at hk
  · injection hk with hk
    subst hk
    exact hs
  · exact Except.noConfusion hk

lemma preserve_grid_packages {s : Store} {new : GridPackages} {s' : Store}
    (hs : NamespacesDisjoint s) (h : insert_grid_packages s new = .ok s') :
    NamespacesDisjoint s' := by
  unfold insert_grid_packages at h
  obtain ⟨-, hk⟩ := runChecksThen_ok h
  split at hk
  · injection hk with hk
    subst hk
    exact hs
  · exact Except.noConfusion hk

lemma preserve_grid_alternatives {s : Store} {new : GridAlternatives} {s' : Store}
    (hs : NamespacesDisjoint s) (h : insert_grid_alternatives s new = .ok s') :
    NamespacesDisjoint s' := by
  unfold insert_grid_alternatives at h
  obtain ⟨-, hk⟩ := runChecksThen_ok h
  split at hk
  · injection hk with hk
    subst hk
    exact hs
  · exact Except.noConfusion hk

lemma preserve_geodetic_crs {s : Store} {new : GeodeticCrs} {s' : Store}
    (hs : NamespacesDisjoint s) (h : insert_geodetic_crs s new = .ok s') :
    NamespacesDisjoint s' := by
  unfold insert_geodetic_crs at h
  obtain ⟨hall, hk⟩ := runChecksThen_ok h
  have huniq := hall (crs_view_has s new.auth_name new.code,
    "insert on geodetic_crs violates constraint: (auth_name, code) must not already exist in crs_view")
    (by simp [geodetic_crs_trigger_checks])
  split at hk
  · injection hk with hk
    subst hk
    intro a c
    exact ⟨crsKindCount_geodetic_append huniq (fun a c => (hs a c).1) a c, (hs a c).2⟩
  · exact Except.noConfusion hk

lemma preserve_vertical_crs {s : Store} {new : VerticalCrs} {s' : Store}
    (hs : NamespacesDisjoint s) (h : insert_vertical_crs s new = .ok s') :
    NamespacesDisjoint s' := by
  unfold insert_vertical_crs at h
  obtain ⟨hall, hk⟩ := runChecksThen_ok h
  have huniq := hall (crs_view_has s new.auth_name new.code,
    "insert on vertical_crs violates constraint: (auth_name, code) must not already exist in crs_view")
    (by simp [vertical_crs_trigger_checks])
  split at hk
  · injection hk with hk
    subst hk
    intro a c
    exact ⟨crsKindCount_vertical_append huniq (fun a c => (hs a c).1) a c, (hs a c).2⟩
  · exact Except.noConfusion hk

lemma preserve_projected_crs {s : Store} {new : ProjectedCrs} {s' : Store}
    (hs : NamespacesDisjoint s) (h : insert_projected_crs s new = .ok s') :
    NamespacesDisjoint s' := by
  unfold insert_projected_crs at h
  obtain ⟨hall, hk⟩ := runChecksThen_ok h
  have huniq := hall (crs_view_has s new.auth_name new.code,
    "insert on projected_crs violates constraint: (auth_name, code) must not already exist in crs_view")
    (by simp [projected_crs_trigger_checks])
  split at hk
  · injection hk with hk
    subst hk
    intro a c
    exact ⟨crsKindCount_projected_append huniq (fun a c => (hs a c).1) a c, (hs a c).2⟩
  · exact Except.noConfusion hk

lemma preserve_compound_crs {s : Store} {new : CompoundCrs} {s' : Store}
    (hs : NamespacesDisjoint s) (h : insert_compound_crs s new = .ok s') :
    NamespacesDisjoint s' := by
  unfold insert_compound_crs at h
  obtain ⟨hall, hk⟩ := runChecksThen_ok h
  have huniq := hall (crs_view_has s new.auth_name new.code,
    "insert on compound_crs violates constraint: (auth_name, code) must not already exist in crs_view")
    (by simp [compound_crs_trigger_checks])
  split at hk
  · injection hk with hk
    subst hk
    intro a c
    exact ⟨crsKindCount_compound_append huniq (fun a c => (hs a c).1) a c, (hs a c).2⟩
  · exact Except.noConfusion hk

lemma preserve_conversion_table {s : Store} {new : ConversionTable} {s' : Store}
    (hs : NamespacesDisjoint s) (h : insert_conversion_table s new = .ok s') :
    NamespacesDisjoint s' := by
  unfold insert_conversion_table at h
  obtain ⟨hall, hk⟩ := runChecksThen_ok h
  have huniq := hall (covwv_has s new.auth_name new.code,
    "insert on conversion_table violates constraint: (auth_name, code) must not already exist in coordinate_operation_with_conversion_view")
    (by simp [conversion_table_trigger_checks])
  split at hk
  · injection hk with hk
    subst hk
    intro a c
    exact ⟨(hs a c).1, opKindCount_conversion_append huniq (fun a c => (hs a c).2) a c⟩
  · exact Except.noConfusion hk

lemma preserve_helmert_transformation {s : Store} {new : HelmertTransformation} {s' : Store}
    (hs : NamespacesDisjoint s) (h : insert_helmert_transformation s new = .ok s') :
    NamespacesDisjoint s' := by
  unfold insert_helmert_transformation at h
  obtain ⟨hall, hk⟩ := runChecksThen_ok h
  have huniq := hall (covwv_has s new.auth_name new.code,
    "insert on helmert_transformation violates constraint: (auth_name, code) must not already exist in coordinate_operation_with_conversion_view")
    (by simp [helmert_trigger_checks])
  split at hk
  · injection hk with hk
    subst hk
    intro a c
    exact ⟨(hs a c).1, opKindCount_helmert_append huniq (fun a c => (hs a c).2) a c⟩
  · exact Except.noConfusion hk

lemma preserve_grid_transformation {s : Store} {new : GridTransformation} {s' : Store}
    (hs : NamespacesDisjoint s) (h : insert_grid_transformation s new = .ok s') :
    NamespacesDisjoint s' := by
  unfold insert_grid_transformation at h
  obtain ⟨hall, hk⟩ := runChecksThen_ok h
  have huniq := hall (covwv_has s new.auth_name new.code,
    "insert on grid_transformation violates constraint: (auth_name, code) must not already exist in coordinate_operation_with_conversion_view")
    (by simp [grid_transformation_trigger_checks])
  split at hk
  · injection hk with hk
    subst hk
    intro a c
    exact ⟨(hs a c).1, opKindCount_grid_append huniq (fun a c => (hs a c).2) a c⟩
  · exact Except.noConfusion hk

lemma preserve_other_transformation {s : Store} {new : OtherTransformation} {s' : Store}
    (hs : NamespacesDisjoint s) (h : insert_other_transformation s new = .ok s') :
    NamespacesDisjoint s' := by
  unfold insert_other_transformation at h
  obtain ⟨hall, hk⟩ := runChecksThen_ok h
  have huniq := hall (covwv_has s new.auth_name new.code,
    "insert on other_transformation violates constraint: (auth_name, code) must not already exist in coordinate_operation_with_conversion_view")
    (by simp [other_transformation_trigger_checks])
  split at hk
  · injection hk with hk
    subst hk
    intro a c
    exact ⟨(hs a c).1, opKindCount_other_append huniq (fun a c => (hs a c).2) a c⟩
  · exact Except.noConfusion hk

lemma preserve_concatenated_operation {s : Store} {new : ConcatenatedOperation} {s' : Store}
    (hs : NamespacesDisjoint s) (h : insert_concatenated_operation s new = .ok s') :
    NamespacesDisjoint s' := by
  unfold insert_concatenated_operation at h
  obtain ⟨hall, hk⟩ := runChecksThen_ok h
  have huniq := hall (covwv_has s new.auth_name new.code,
    "insert on concatenated_operation violates constraint: (auth_name, code) must not already exist in coordinate_operation_with_conversion_view")
    (by simp [concatenated_operation_trigger_checks])
  split at hk
  · injection hk with hk
    subst hk
    intro a c
    exact ⟨(hs a c).1, opKindCount_concat_append huniq (fun a c => (hs a c).2) a c⟩
  · exact Except.noConfusion hk

lemma step_preserves_disjoint {s s' : Store} (hs : NamespacesDisjoint s) (h : Step s s') :
    NamespacesDisjoint s' := by
  cases h with
  | unit_of_measure a b hb => exact preserve_unit_of_measure hs hb
  | celestial_body a b hb => exact preserve_celestial_body hs hb
  | ellipsoid a b hb => exact preserve_ellipsoid hs hb
  | area a b hb => exact preserve_area hs hb
  | prime_meridian a b hb => exact preserve_prime_meridian hs hb
  | geodetic_datum a b hb => exact preserve_geodetic_datum hs hb
  | vertical_datum a b hb => exact preserve_vertical_datum hs hb
  | coordinate_system a b hb => exact preserve_coordinate_system hs hb
  | geodetic_crs a b hb => exact preserve_geodetic_crs hs hb
  | vertical_crs a b hb => exact preserve_vertical_crs hs hb
  | projected_crs a b hb => exact preserve_projected_crs hs hb
  | compound_crs a b hb => exact preserve_compound_crs hs hb
  | conversion_method a b hb => exact preserve_conversion_method hs hb
  | conversion_table a b hb => exact preserve_conversion_table hs hb
  | coordinate_operation_method a b hb => exact preserve_coordinate_operation_method hs hb
  | helmert_transformation a b hb => exact preserve_helmert_transformation hs hb
  | grid_transformation a b hb => exact preserve_grid_transformation hs hb
  | grid_packages a b hb => exact preserve_grid_packages hs hb
  | grid_alternatives a b hb => exact preserve_grid_alternatives hs hb
  | other_transformation a b hb => exact preserve_other_transformation hs hb
  | concatenated_operation a b hb => exact preserve_concatenated_operation hs hb

lemma initialStore_disjoint : NamespacesDisjoint initialStore := by
  intro a c
  refine ⟨?_, ?_⟩
  · simp [crsKindCount, initialStore]
  · simp [opKindCount, initialStore]

lemma reachable_disjoint {s : Store} (h : Reachable s) : NamespacesDisjoint s := by
  induction h with
  | init => exact initialStore_disjoint
  | step _ hstep ih => exact step_preserves_disjoint ih hstep

/-! ### Claim theorems -/

/-- C1: the spec states that a geodetic CRS admitted with deprecated = false
and a structured definition (text_definition NULL, datum and area references
present) must reference a non-deprecated datum and area, an insert violating
this being rejected.  The trigger guards both deprecation rules with
AND NEW.text_definition IS NOT NULL, so they are skipped exactly on structured
rows: the structured, non-deprecated CRS below referencing the deprecated
datum EPSG:6001 and the deprecated area EPSG:1263 is admitted. -/
theorem c1_structured_deprecation_unenforced :
    crsBug.deprecated = false ∧
    crsBug.text_definition = none ∧
    crsBug.datum_auth_name = some "EPSG" ∧ crsBug.datum_code = some "6001" ∧
    geodetic_datum_deprecated_exists baseStore (some "EPSG") (some "6001") = true ∧
    crsBug.area_of_use_auth_name = some "EPSG" ∧ crsBug.area_of_use_code = some "1263" ∧
    area_deprecated_exists baseStore (some "EPSG") (some "1263") = true ∧
    insert_geodetic_crs baseStore crsBug = .ok baseStoreWithBug :=
  ⟨rfl, rfl, rfl, rfl, by decide, rfl, rfl, by decide, by decide⟩

/-- C2 counterexample: a conversion row whose param1 slot is partially set
(param1_value present while the param1 ref and unit are NULL) is admitted,
refuting the claimed rejection. -/
theorem c2_counterexample_slot_gap_admitted :
    convSlotGap.param1_value = some 1 ∧
    convSlotGap.param1_auth_name = none ∧ convSlotGap.param1_code = none ∧
    convSlotGap.param1_uom_auth_name = none ∧ convSlotGap.param1_uom_code = none ∧
    insert_conversion_table baseStore convSlotGap = .ok baseStoreWithConv :=
  ⟨rfl, rfl, rfl, rfl, rfl, by decide⟩

/-- C2 amended: conversion admission never inspects the seven parameter ref
and value fields; clearing them all leaves the outcome of the insert
(admitted or rejected) unchanged.  Only the parameter unit references are
constrained, as foreign keys. -/
theorem c2_amended_param_slots_unchecked (s : Store) (c : ConversionTable) :
    insertAdmitted (insert_conversion_table s c) =
      insertAdmitted (insert_conversion_table s (clearParamRefs c)) := by
  unfold insert_conversion_table
  rw [show conversion_table_trigger_checks s (clearParamRefs c) =
        conversion_table_trigger_checks s c from rfl,
      show conversion_table_checks (clearParamRefs c) = conversion_table_checks c from rfl,
      show conversion_table_pk s (clearParamRefs c) = conversion_table_pk s c from rfl,
      show conversion_table_fks s (clearParamRefs c) = conversion_table_fks s c from rfl]
  unfold conversion_table_trigger_checks runChecksThen
  split_ifs <;> rfl

/-- C3: for every admitted ellipsoid exactly one of inverse flattening and
semi-minor axis is present, and an insert with both NULL or both set is
rejected with the named rule violation of the trigger. -/
theorem c3_ellipsoid_exactly_one :
    (∀ (s : Store) (e : Ellipsoid) (s' : Store), insert_ellipsoid s e = .ok s' →
       e.inv_flattening.isSome = !e.semi_minor_axis.isSome) ∧
    (∀ (s : Store) (e : Ellipsoid),
       (e.inv_flattening = none ∧ e.semi_minor_axis = none) ∨
       (e.inv_flattening ≠ none ∧ e.semi_minor_axis ≠ none) →
       insert_ellipsoid s e =
         .error "insert on ellipsoid violates constraint: inv_flattening (exclusive) or semi_minor_axis should be defined") := by
  constructor
  · intro s e s' h
    unfold insert_ellipsoid at h
    obtain ⟨hall, -⟩ := runChecksThen_ok h
    have h1 := hall ((e.inv_flattening.isNone && e.semi_minor_axis.isNone) ||
      (e.inv_flattening.isSome && e.semi_minor_axis.isSome),
      "insert on ellipsoid violates constraint: inv_flattening (exclusive) or semi_minor_axis should be defined")
      (by simp [ellipsoid_trigger_checks])
    cases hi : e.inv_flattening <;> cases hm : e.semi_minor_axis <;> simp_all
  · intro s e h
    have hc : ((e.inv_flattening.isNone && e.semi_minor_axis.isNone) ||
        (e.inv_flattening.isSome && e.semi_minor_axis.isSome)) = true := by
      rcases h with ⟨h1, h2⟩ | ⟨h1, h2⟩
      · simp [h1, h2]
      · simp [Option.isSome_iff_ne_none, h1, h2]
    simp [insert_ellipsoid, ellipsoid_trigger_checks, runChecksThen, hc]

/-- Witness for C3: Clarke 1880 is admitted with exactly one shape parameter,
and an ellipsoid with both parameters NULL is rejected. -/
theorem c3_witness :
    ellipsoidClarke.inv_flattening.isSome = !ellipsoidClarke.semi_minor_axis.isSome ∧
    insert_ellipsoid baseStore ellipsoidBothNone =
      .error "insert on ellipsoid violates constraint: inv_flattening (exclusive) or semi_minor_axis should be defined" :=
  ⟨c3_ellipsoid_exactly_one.1 baseStore ellipsoidClarke baseStoreWithClarke (by decide),
   c3_ellipsoid_exactly_one.2 baseStore ellipsoidBothNone (Or.inl ⟨by decide, by decide⟩)⟩

/-- C4: every admitted area satisfies south ≤ north and west ≤ east or
east + 360 − west ≤ 200 (on present bounds), and an area with south = 10 and
north = 5 is rejected. -/
theorem c4_area_bounds :
    (∀ (s : Store) (a : Area) (s' : Store), insert_area s a = .ok s' →
       (∀ sl nl : Rat, a.south_lat = some sl → a.north_lat = some nl → sl ≤ nl) ∧
       (∀ w e : Rat, a.west_lon = some w → a.east_lon = some e →
         w ≤ e ∨ e + 360 - w ≤ 200)) ∧
    (∀ (s : Store) (a : Area), a.south_lat = some 10 → a.north_lat = some 5 →
       insert_area s a = .error "insert on area violates constraint: south_lat <= north_lat") := by
  constructor
  · intro s a s' h
    unfold insert_area at h
    obtain ⟨hall, -⟩ := runChecksThen_ok h
    have h1 := hall (area_south_north_violation a,
      "insert on area violates constraint: south_lat <= north_lat")
      (by simp [area_trigger_checks])
    have h2 := hall (area_lon_violation a,
      "insert on area violates constraint: west_lon <= east_lon OR (east_lon + 360 - west_lon <= 200)")
      (by simp [area_trigger_checks])
    constructor
    · intro sl nl hsl hnl
      simp only [area_south_north_violation, hsl, hnl] at h1
      exact le_of_not_lt (by simpa using h1)
    · intro w e hw he
      simp only [area_lon_violation, hw, he] at h2
      cases hb : (decide (w ≤ e) || decide (e + 360 - w ≤ 200)) with
      | false => rw [hb] at h2; simp at h2
      | true =>
          rcases Bool.or_eq_true_iff.mp hb with hc | hc
          · exact Or.inl (of_decide_eq_true hc)
          · exact Or.inr (of_decide_eq_true hc)
  · intro s a h1 h2
    have hc : area_south_north_violation a = true := by
      unfold area_south_north_violation
      rw [h1, h2]
      decide
    simp [insert_area, area_trigger_checks, runChecksThen, hc]

/-- Witness for C4: a well-formed area is admitted with south ≤ north, and
Area(south = 10, north = 5) is rejected. -/
theorem c4_witness :
    (∀ sl nl : Rat, areaOkNew.south_lat = some sl → areaOkNew.north_lat = some nl → sl ≤ nl) ∧
    insert_area baseStore areaBad =
      .error "insert on area violates constraint: south_lat <= north_lat" :=
  ⟨(c4_area_bounds.1 baseStore areaOkNew baseStoreWithArea (by decide)).1,
   c4_area_bounds.2 baseStore areaBad (by decide) (by decide)⟩

/-- C5: in every reachable store state no (authority, code) pair is held by
two different CRS kinds nor by two different coordinate-operation kinds, and
each of the nine inserts consults its kind-tagged union view (crs_view or
coordinate_operation_with_conversion_view) and rejects a duplicate key. -/
theorem c5_namespace_uniqueness :
    (∀ s : Store, Reachable s → NamespacesDisjoint s) ∧
    (∀ (s : Store) (n : GeodeticCrs), crs_view_has s n.auth_name n.code = true →
       insert_geodetic_crs s n = .error "insert on geodetic_crs violates constraint: (auth_name, code) must not already exist in crs_view") ∧
    (∀ (s : Store) (n : ProjectedCrs), crs_view_has s n.auth_name n.code = true →
       insert_projected_crs s n = .error "insert on projected_crs violates constraint: (auth_name, code) must not already exist in crs_view") ∧
    (∀ (s : Store) (n : VerticalCrs), crs_view_has s n.auth_name n.code = true →
       insert_vertical_crs s n = .error "insert on vertical_crs violates constraint: (auth_name, code) must not already exist in crs_view") ∧
    (∀ (s : Store) (n : CompoundCrs), crs_view_has s n.auth_name n.code = true →
       insert_compound_crs s n = .error "insert on compound_crs violates constraint: (auth_name, code) must not already exist in crs_view") ∧
    (∀ (s : Store) (n : ConversionTable), covwv_has s n.auth_name n.code = true →
       insert_conversion_table s n = .error "insert on conversion_table violates constraint: (auth_name, code) must not already exist in coordinate_operation_with_conversion_view") ∧
    (∀ (s : Store) (n : HelmertTransformation), covwv_has s n.auth_name n.code = true →
       insert_helmert_transformation s n = .error "insert on helmert_transformation violates constraint: (auth_name, code) must not already exist in coordinate_operation_with_conversion_view") ∧
    (∀ (s : Store) (n : GridTransformation), covwv_has s n.auth_name n.code = true →
       insert_grid_transformation s n = .error "insert on grid_transformation violates constraint: (auth_name, code) must not already exist in coordinate_operation_with_conversion_view") ∧
    (∀ (s : Store) (n : OtherTransformation), covwv_has s n.auth_name n.code = true →
       insert_other_transformation s n = .error "insert on other_transformation violates constraint: (auth_name, code) must not already exist in coordinate_operation_with_conversion_view") ∧
    (∀ (s : Store) (n : ConcatenatedOperation), covwv_has s n.auth_name n.code = true →
       insert_concatenated_operation s n = .error "insert on concatenated_operation violates constraint: (auth_name, code) must not already exist in coordinate_operation_with_conversion_view") := by
  refine ⟨fun s h => reachable_disjoint h, ?_, ?_, ?_, ?_, ?_, ?_, ?_, ?_, ?_⟩ <;>
    intro s n h
  · simp [insert_geodetic_crs, geodetic_crs_trigger_checks, runChecksThen, h]
  · simp [insert_projected_crs, projected_crs_trigger_checks, runChecksThen, h]
  · simp [insert_vertical_crs, vertical_crs_trigger_checks, runChecksThen, h]
  · simp [insert_compound_crs, compound_crs_trigger_checks, runChecksThen, h]
  · simp [insert_conversion_table, conversion_table_trigger_checks, runChecksThen, h]
  · simp [insert_helmert_transformation, helmert_trigger_checks, runChecksThen, h]
  · simp [insert_grid_transformation, grid_transformation_trigger_checks, runChecksThen, h]
  · simp [insert_other_transformation, other_transformation_trigger_checks, runChecksThen, h]
  · simp [insert_concatenated_operation, concatenated_operation_trigger_checks, runChecksThen, h]

/-- Witness for C5: a store reached by one admitted insert satisfies the
disjointness bound at a concrete key, and re-inserting the same key is
rejected through the union view. -/
theorem c5_witness :
    crsKindCount storeG "EPSG" "4100" ≤ 1 ∧ opKindCount storeG "EPSG" "4100" ≤ 1 ∧
    insert_geodetic_crs storeG crsSourceA =
      .error "insert on geodetic_crs violates constraint: (auth_name, code) must not already exist in crs_view" := by
  have hreach : Reachable storeG :=
    Reachable.step Reachable.init (Step.geodetic_crs initialStore crsSourceA storeG (by decide))
  exact ⟨(c5_namespace_uniqueness.1 storeG hreach "EPSG" "4100").1,
         (c5_namespace_uniqueness.1 storeG hreach "EPSG" "4100").2,
         c5_namespace_uniqueness.2.1 storeG crsSourceA (by decide)⟩

/-- C6: an admitted concatenated operation has each of its 2 or 3 steps
already present in the unified operation view and none of its steps keyed as
a concatenated operation, and an insert whose step references a concatenated
operation fails. -/
theorem c6_concatenated_steps :
    (∀ (s : Store) (n : ConcatenatedOperation) (s' : Store),
       insert_concatenated_operation s n = .ok s' →
       covwv_has s n.step1_auth_name n.step1_code = true ∧
       covwv_has s n.step2_auth_name n.step2_code = true ∧
       (n.step3_auth_name.isSome = true → covwv_has_opt s n.step3_auth_name n.step3_code = true) ∧
       concat_op_has s n.step1_auth_name n.step1_code = false ∧
       concat_op_has s n.step2_auth_name n.step2_code = false ∧
       concat_op_has_opt s n.step3_auth_name n.step3_code = false) ∧
    (∀ (s : Store) (n : ConcatenatedOperation) (s' : Store),
       concat_op_has s n.step1_auth_name n.step1_code = true ∨
       concat_op_has s n.step2_auth_name n.step2_code = true ∨
       concat_op_has_opt s n.step3_auth_name n.step3_code = true →
       insert_concatenated_operation s n ≠ .ok s') := by
  constructor
  · intro s n s' h
    unfold insert_concatenated_operation at h
    obtain ⟨hall, -⟩ := runChecksThen_ok h
    have h2 := hall (!(covwv_has s n.step1_auth_name n.step1_code),
      "insert on concatenated_operation violates constraint: step1(auth_name, code) must already exist in coordinate_operation_with_conversion_view")
      (by simp [concatenated_operation_trigger_checks])
    have h3 := hall (!(covwv_has s n.step2_auth_name n.step2_code),
      "insert on concatenated_operation violates constraint: step2(auth_name, code) must already exist in coordinate_operation_with_conversion_view")
      (by simp [concatenated_operation_trigger_checks])
    have h4 := hall (n.step3_auth_name.isSome && !(covwv_has_opt s n.step3_auth_name n.step3_code),
      "insert on concatenated_operation violates constraint: step3(auth_name, code) must already exist in coordinate_operation_with_conversion_view")
      (by simp [concatenated_operation_trigger_checks])
    have h7 := hall (concat_op_has s n.step1_auth_name n.step1_code,
      "insert on concatenated_operation violates constraint: step1 should not be a concatenated_operation")
      (by simp [concatenated_operation_trigger_checks])
    have h8 := hall (concat_op_has s n.step2_auth_name n.step2_code,
      "insert on concatenated_operation violates constraint: step2 should not be a concatenated_operation")
      (by simp [concatenated_operation_trigger_checks])
    have h9 := hall (concat_op_has_opt s n.step3_auth_name n.step3_code,
      "insert on concatenated_operation violates constraint: step3 should not be a concatenated_operation")
      (by simp [concatenated_operation_trigger_checks])
    refine ⟨by simpa using h2, by simpa using h3, ?_, h7, h8, h9⟩
    intro hsome
    rcases Bool.and_eq_false_iff.mp h4 with hc | hc
    · rw [hsome] at hc
      exact absurd hc (by simp)
    · simpa using hc
  · intro s n s' hor h
    unfold insert_concatenated_operation at h
    obtain ⟨hall, -⟩ := runChecksThen_ok h
    have h7 := hall (concat_op_has s n.step1_auth_name n.step1_code,
      "insert on concatenated_operation violates constraint: step1 should not be a concatenated_operation")
      (by simp [concatenated_operation_trigger_checks])
    have h8 := hall (concat_op_has s n.step2_auth_name n.step2_code,
      "insert on concatenated_operation violates constraint: step2 should not be a concatenated_operation")
      (by simp [concatenated_operation_trigger_checks])
    have h9 := hall (concat_op_has_opt s n.step3_auth_name n.step3_code,
      "insert on concatenated_operation violates constraint: step3 should not be a concatenated_operation")
      (by simp [concatenated_operation_trigger_checks])
    rcases hor with hc | hc | hc <;> simp_all

/-- Witness for C6: a concatenated operation over two existing conversions is
admitted with both steps resolving in the operation view and neither keyed as
a concatenated operation, while an insert whose step1 references the existing
concatenated operation EPSG:8000 fails. -/
theorem c6_witness :
    covwv_has opStore concatNew.step1_auth_name concatNew.step1_code = true ∧
    concat_op_has opStore concatNew.step1_auth_name concatNew.step1_code = false ∧
    insert_concatenated_operation opStore concatBad ≠ .ok opStoreWithConcat :=
  ⟨(c6_concatenated_steps.1 opStore concatNew opStoreWithConcat (by decide)).1,
   (c6_concatenated_steps.1 opStore concatNew opStoreWithConcat (by decide)).2.2.2.1,
   c6_concatenated_steps.2 opStore concatBad opStoreWithConcat (Or.inl (by decide))⟩

/-- C7: an admitted grid_alternatives record pairs formats CTable2, NTv1 and
NTv2 only with method hgridshift and format GTX only with vgridshift, and an
insert pairing a format with the other method is rejected. -/
theorem c7_grid_alternatives_format_method :
    (∀ (s : Store) (g : GridAlternatives) (s' : Store),
       insert_grid_alternatives s g = .ok s' →
       (g.proj_grid_format ∈ ["CTable2", "NTv1", "NTv2"] → g.proj_method = "hgridshift") ∧
       (g.proj_grid_format = "GTX" → g.proj_method = "vgridshift")) ∧
    (∀ (s : Store) (g : GridAlternatives),
       g.proj_grid_format ∈ ["CTable2", "NTv1", "NTv2"] → g.proj_method = "vgridshift" →
       insert_grid_alternatives s g =
         .error "insert on grid_alternatives violates constraint: proj_method must be hgridshift when proj_grid_format is CTable2, NTv1, NTv2") ∧
    (∀ (s : Store) (g : GridAlternatives),
       g.proj_grid_format = "GTX" → g.proj_method = "hgridshift" →
       insert_grid_alternatives s g =
         .error "insert on grid_alternatives violates constraint: proj_method must be vridshift when proj_grid_format is GTX") := by
  refine ⟨?_, ?_, ?_⟩
  · intro s g s' h
    unfold insert_grid_alternatives at h
    obtain ⟨hall, -⟩ := runChecksThen_ok h
    have h3 := hall (g.proj_method != "hgridshift" &&
      ["CTable2", "NTv1", "NTv2"].contains g.proj_grid_format,
      "insert on grid_alternatives violates constraint: proj_method must be hgridshift when proj_grid_format is CTable2, NTv1, NTv2")
      (by simp [grid_alternatives_trigger_checks])
    have h4 := hall (g.proj_method != "vgridshift" && ["GTX"].contains g.proj_grid_format,
      "insert on grid_alternatives violates constraint: proj_method must be vridshift when proj_grid_format is GTX")
      (by simp [grid_alternatives_trigger_checks])
    constructor
    · intro hmem
      have hmem' : g.proj_grid_format = "CTable2" ∨ g.proj_grid_format = "NTv1" ∨
          g.proj_grid_format = "NTv2" := by simpa using hmem
      have hcont : (["CTable2", "NTv1", "NTv2"].contains g.proj_grid_format) = true := by
        rcases hmem' with hc | hc | hc <;> rw [hc] <;> decide
      rw [hcont, Bool.and_true] at h3
      simpa using h3
    · intro hgtx
      have hcont : (["GTX"].contains g.proj_grid_format) = true := by rw [hgtx]; decide
      rw [hcont, Bool.and_true] at h4
      simpa using h4
  · intro s g hmem hmethod
    have hmem' : g.proj_grid_format = "CTable2" ∨ g.proj_grid_format = "NTv1" ∨
        g.proj_grid_format = "NTv2" := by simpa using hmem
    rcases hmem' with hc | hc | hc <;>
      simp [insert_grid_alternatives, grid_alternatives_trigger_checks, runChecksThen,
        hmethod, hc]
  · intro s g hgtx hmethod
    simp [insert_grid_alternatives, grid_alternatives_trigger_checks, runChecksThen,
      hmethod, hgtx]

/-- Witness for C7: an NTv2 and hgridshift record is admitted (and the
admission theorem yields both pairing facts), while NTv2 with vgridshift and
GTX with hgridshift are rejected. -/
theorem c7_witness :
    gaNull.proj_method = "hgridshift" ∧
    insert_grid_alternatives baseStore gaMismatch =
      .error "insert on grid_alternatives violates constraint: proj_method must be hgridshift when proj_grid_format is CTable2, NTv1, NTv2" ∧
    insert_grid_alternatives baseStore gaMismatchGtx =
      .error "insert on grid_alternatives violates constraint: proj_method must be vridshift when proj_grid_format is GTX" :=
  ⟨(c7_grid_alternatives_format_method.1 baseStore gaNull baseStoreWithGa (by decide)).1 (by decide),
   c7_grid_alternatives_format_method.2.1 baseStore gaMismatch (by decide) (by decide),
   c7_grid_alternatives_format_method.2.2 baseStore gaMismatchGtx (by decide) (by decide)⟩

/-- C8: the deprecated source/target CRS rejection rules of the Helmert, grid,
other and concatenated operation triggers are skipped exactly when the
authority of the record is ESRI, and the projected CRS deprecated-base rule is
skipped exactly when the authority is ESRI and the base geodetic CRS
authority is not ESRI. -/
theorem c8_esri_exemption :
    (∀ (s : Store) (n : HelmertTransformation),
       geodetic_crs_deprecated_exists s (some n.source_crs_auth_name) (some n.source_crs_code) = true →
       n.deprecated = false →
       (helmert_source_deprecated_check s n = false ↔ n.auth_name = "ESRI")) ∧
    (∀ (s : Store) (n : HelmertTransformation),
       geodetic_crs_deprecated_exists s (some n.target_crs_auth_name) (some n.target_crs_code) = true →
       n.deprecated = false →
       (helmert_target_deprecated_check s n = false ↔ n.auth_name = "ESRI")) ∧
    (∀ (s : Store) (n : GridTransformation),
       crs_view_deprecated_has s n.source_crs_auth_name n.source_crs_code = true →
       n.deprecated = false →
       (grid_source_deprecated_check s n = false ↔ n.auth_name = "ESRI")) ∧
    (∀ (s : Store) (n : GridTransformation),
       crs_view_deprecated_has s n.target_crs_auth_name n.target_crs_code = true →
       n.deprecated = false →
       (grid_target_deprecated_check s n = false ↔ n.auth_name = "ESRI")) ∧
    (∀ (s : Store) (n : OtherTransformation),
       crs_view_deprecated_has s n.source_crs_auth_name n.source_crs_code = true →
       n.deprecated = false →
       (other_source_deprecated_check s n = false ↔ n.auth_name = "ESRI")) ∧
    (∀ (s : Store) (n : OtherTransformation),
       crs_view_deprecated_has s n.target_crs_auth_name n.target_crs_code = true →
       n.deprecated = false →
       (other_target_deprecated_check s n = false ↔ n.auth_name = "ESRI")) ∧
    (∀ (s : Store) (n : ConcatenatedOperation),
       crs_view_deprecated_has s n.source_crs_auth_name n.source_crs_code = true →
       n.deprecated = false →
       (concat_source_deprecated_check s n = false ↔ n.auth_name = "ESRI")) ∧
    (∀ (s : Store) (n : ConcatenatedOperation),
       crs_view_deprecated_has s n.target_crs_auth_name n.target_crs_code = true →
       n.deprecated = false →
       (concat_target_deprecated_check s n = false ↔ n.auth_name = "ESRI")) ∧
    (∀ (s : Store) (n : ProjectedCrs) (ga gc : String),
       n.geodetic_crs_auth_name = some ga → n.geodetic_crs_code = some gc →
       geodetic_crs_deprecated_exists s (some ga) (some gc) = true →
       n.deprecated = false →
       (projected_crs_geodetic_deprecated_check s n = false ↔
         (n.auth_name = "ESRI" ∧ ga ≠ "ESRI"))) := by
  refine ⟨?_, ?_, ?_, ?_, ?_, ?_, ?_, ?_, ?_⟩
  · intro s n hex hdep
    unfold helmert_source_deprecated_check
    rw [hex, hdep]
    simp
  · intro s n hex hdep
    unfold helmert_target_deprecated_check
    rw [hex, hdep]
    simp
  · intro s n hex hdep
    unfold grid_source_deprecated_check
    rw [hex, hdep]
    simp
  · intro s n hex hdep
    unfold grid_target_deprecated_check
    rw [hex, hdep]
    simp
  · intro s n hex hdep
    unfold other_source_deprecated_check
    rw [hex, hdep]
    simp
  · intro s n hex hdep
    unfold other_target_deprecated_check
    rw [hex, hdep]
    simp
  · intro s n hex hdep
    unfold concat_source_deprecated_check
    rw [hex, hdep]
    simp
  · intro s n hex hdep
    unfold concat_target_deprecated_check
    rw [hex, hdep]
    simp
  · intro s n ga gc hga hgc hex hdep
    unfold projected_crs_geodetic_deprecated_check
    rw [hga, hgc, hex, hdep]
    simp

/-- Witness for C8: the checks pass for the ESRI-authored Helmert and
projected records even though their referenced CRS EPSG:4002 is deprecated. -/
theorem c8_witness :
    helmert_source_deprecated_check opStore helmertEsri = false ∧
    projected_crs_geodetic_deprecated_check opStore projEsri = false :=
  ⟨(c8_esri_exemption.1 opStore helmertEsri (by decide) rfl).mpr rfl,
   (c8_esri_exemption.2.2.2.2.2.2.2.2 opStore projEsri "EPSG" "4002" rfl rfl (by decide) rfl).mpr
     ⟨rfl, by decide⟩⟩

/-- C9 counterexample: the dimension-2 rule for geographic 2D is guarded by
NEW.deprecated != 1, so the deprecated structured geographic 2D CRS below,
whose coordinate system EPSG:6423 is ellipsoidal of dimension 3, is admitted;
the claim as stated (dimension must match for every admitted structured CRS)
is therefore false. -/
theorem c9_counterexample_deprecated_2d :
    crsDep2D3.type = "geographic 2D" ∧
    crsDep2D3.text_definition = none ∧
    crsDep2D3.deprecated = true ∧
    cs_dimension baseStore crsDep2D3.coordinate_system_auth_name crsDep2D3.coordinate_system_code = some 3 ∧
    insert_geodetic_crs baseStore crsDep2D3 = .ok baseStoreWith2D3 :=
  ⟨rfl, rfl, rfl, by decide, by decide⟩

/-- C9 amended: for every geodetic CRS admitted with a structured definition
the referenced coordinate system exists and matches the CRS type: geocentric
requires Cartesian of dimension 3, geographic 2D requires ellipsoidal type
and, when the CRS is not deprecated, dimension 2, and geographic 3D requires
ellipsoidal of dimension 3; violating inserts are rejected. -/
theorem c9_amended_cs_match (s : Store) (n : GeodeticCrs) (s' : Store)
    (h : insert_geodetic_crs s n = .ok s') (hstruct : n.text_definition = none) :
    ∃ cs : CoordinateSystem,
      cs_find s n.coordinate_system_auth_name n.coordinate_system_code = some cs ∧
      (n.type = "geocentric" → cs.type = "Cartesian" ∧ cs.dimension = 3) ∧
      (n.type = "geographic 2D" → cs.type = "ellipsoidal" ∧
        (n.deprecated = false → cs.dimension = 2)) ∧
      (n.type = "geographic 3D" → cs.type = "ellipsoidal" ∧ cs.dimension = 3) := by
  unfold insert_geodetic_crs at h
  obtain ⟨hall, hk⟩ := runChecksThen_ok h
  have h2 := hall ((n.coordinate_system_auth_name.isNone || n.coordinate_system_code.isNone) &&
    n.text_definition.isNone,
    "insert on geodetic_crs violates constraint: coordinate_system must be defined when text_definition is NULL")
    (by simp [geodetic_crs_trigger_checks])
  cases hA : n.coordinate_system_auth_name with
  | none => rw [hA, hstruct] at h2; simp at h2
  | some a =>
  cases hC : n.coordinate_system_code with
  | none => rw [hA, hC, hstruct] at h2; simp at h2
  | some c =>
  have hfk : fk_cs s (some a) (some c) = true := by
    split at hk
    · next hcons =>
        simp only [Bool.and_eq_true] at hcons
        have hfks := hcons.2
        unfold geodetic_crs_fks at hfks
        simp only [Bool.and_eq_true] at hfks
        rw [hA, hC] at hfks
        exact hfks.1.1
    · exact Except.noConfusion hk
  have hany : s.coordinate_system.any (fun r => r.auth_name == a && r.code == c) = true := by
    simpa [fk_cs] using hfk
  obtain ⟨r0, hr0, hpr0⟩ := List.any_eq_true.mp hany
  have hsome : (s.coordinate_system.find? (fun r => r.auth_name == a && r.code == c)).isSome := by
    rw [List.find?_isSome]
    exact ⟨r0, hr0, hpr0⟩
  obtain ⟨cs, hcs⟩ := Option.isSome_iff_exists.mp hsome
  have htype : cs_type s n.coordinate_system_auth_name n.coordinate_system_code = some cs.type := by
    rw [hA, hC]
    simp [cs_type, cs_find, hcs]
  have hdim : cs_dimension s n.coordinate_system_auth_name n.coordinate_system_code = some cs.dimension := by
    rw [hA, hC]
    simp [cs_dimension, cs_find, hcs]
  refine ⟨cs, by simp [cs_find, hcs], ?_, ?_, ?_⟩
  · intro ht
    have h9 := hall (n.type == "geocentric" &&
      optNeInt (cs_dimension s n.coordinate_system_auth_name n.coordinate_system_code) 3,
      "insert on geodetic_crs violates constraint: coordinate_system.dimension must be 3 for type = geocentric")
      (by simp [geodetic_crs_trigger_checks])
    have h10 := hall (n.type == "geocentric" &&
      optNeStr (cs_type s n.coordinate_system_auth_name n.coordinate_system_code) "Cartesian",
      "insert on geodetic_crs violates constraint: coordinate_system.type must be Cartesian for type = geocentric")
      (by simp [geodetic_crs_trigger_checks])
    rw [ht, hdim] at h9
    rw [ht, htype] at h10
    exact ⟨by simpa [optNeStr] using h10, by simpa [optNeInt] using h9⟩
  · intro ht
    have h11 := hall ((n.type == "geographic 2D" || n.type == "geographic 3D") &&
      optNeStr (cs_type s n.coordinate_system_auth_name n.coordinate_system_code) "ellipsoidal",
      "insert on geodetic_crs violates constraint: coordinate_system.type must be ellipsoidal for type = geographic 2D or geographic 3D")
      (by simp [geodetic_crs_trigger_checks])
    have h12 := hall (n.type == "geographic 2D" && !n.deprecated &&
      optNeInt (cs_dimension s n.coordinate_system_auth_name n.coordinate_system_code) 2,
      "insert on geodetic_crs violates constraint: coordinate_system.dimension must be 2 for type = geographic 2D")
      (by simp [geodetic_crs_trigger_checks])
    rw [ht, htype] at h11
    rw [ht, hdim] at h12
    refine ⟨by simpa [optNeStr] using h11, ?_⟩
    intro hdep
    rw [hdep] at h12
    simpa [optNeInt] using h12
  · intro ht
    have h11 := hall ((n.type == "geographic 2D" || n.type == "geographic 3D") &&
      optNeStr (cs_type s n.coordinate_system_auth_name n.coordinate_system_code) "ellipsoidal",
      "insert on geodetic_crs violates constraint: coordinate_system.type must be ellipsoidal for type = geographic 2D or geographic 3D")
      (by simp [geodetic_crs_trigger_checks])
    have h13 := hall (n.type == "geographic 3D" &&
      optNeInt (cs_dimension s n.coordinate_system_auth_name n.coordinate_system_code) 3,
      "insert on geodetic_crs violates constraint: coordinate_system.dimension must be 3 for type = geographic 3D")
      (by simp [geodetic_crs_trigger_checks])
    rw [ht, htype] at h11
    rw [ht, hdim] at h13
    exact ⟨by simpa [optNeStr] using h11, by simpa [optNeInt] using h13⟩

/-- Witness for C9: the admitted structured geographic 2D CRS EPSG:4004
resolves to the ellipsoidal dimension-2 coordinate system EPSG:6422. -/
theorem c9_witness :
    ∃ cs : CoordinateSystem,
      cs_find baseStore crsOk2D.coordinate_system_auth_name crsOk2D.coordinate_system_code = some cs ∧
      (crsOk2D.type = "geocentric" → cs.type = "Cartesian" ∧ cs.dimension = 3) ∧
      (crsOk2D.type = "geographic 2D" → cs.type = "ellipsoidal" ∧
        (crsOk2D.deprecated = false → cs.dimension = 2)) ∧
      (crsOk2D.type = "geographic 3D" → cs.type = "ellipsoidal" ∧ cs.dimension = 3) :=
  c9_amended_cs_match baseStore crsOk2D baseStoreWithOk2D (by decide) rfl

lemma vertical_crs_datum_check_false {s : Store} {n : VerticalCrs}
    (h : s.vertical_crs.any
      (fun r => r.auth_name == n.datum_auth_name && r.code == n.datum_code) = false) :
    vertical_crs_datum_deprecated_check s n = false := by
  unfold vertical_crs_datum_deprecated_check vertical_crs_deprecated_exists
  have hall : s.vertical_crs.any
      (fun r => r.auth_name == n.datum_auth_name && r.code == n.datum_code && r.deprecated) = false := by
    rw [List.any_eq_false] at h ⊢
    intro r hr
    have hkey := h r hr
    cases hx : (r.auth_name == n.datum_auth_name) <;>
      cases hy : (r.code == n.datum_code) <;> simp_all
  show ((s.vertical_crs.any
    fun r => r.auth_name == n.datum_auth_name && r.code == n.datum_code && r.deprecated) &&
    !n.deprecated) = false
  rw [hall]
  simp

/-- C10: the datum-deprecation rule of vertical_crs_insert_trigger scans the
vertical_crs table (aliased datum) keyed by the (authority, code) of the datum
rather than vertical_datum, so it never fires when no vertical CRS is keyed
like the datum, whatever the deprecation state of the vertical datum itself;
in particular a non-deprecated vertical CRS referencing a deprecated vertical
datum is admitted when the remaining, unrelated checks pass. -/
theorem c10_vertical_datum_rule_misses_datum :
    (∀ (s : Store) (n : VerticalCrs),
       s.vertical_crs.any
         (fun r => r.auth_name == n.datum_auth_name && r.code == n.datum_code) = false →
       vertical_crs_datum_deprecated_check s n = false) ∧
    (∀ (s : Store) (n : VerticalCrs) (d : VerticalDatum),
       d ∈ s.vertical_datum → d.auth_name = n.datum_auth_name → d.code = n.datum_code →
       d.deprecated = true →
       n.deprecated = false →
       s.vertical_crs.any
         (fun r => r.auth_name == n.datum_auth_name && r.code == n.datum_code) = false →
       crs_view_has s n.auth_name n.code = false →
       area_deprecated_exists s (some n.area_of_use_auth_name) (some n.area_of_use_code) = false →
       cs_type s (some n.coordinate_system_auth_name) (some n.coordinate_system_code) = some "vertical" →
       cs_dimension s (some n.coordinate_system_auth_name) (some n.coordinate_system_code) = some 1 →
       (vertical_crs_checks n && vertical_crs_pk s n && vertical_crs_fks s n) = true →
       insert_vertical_crs s n = .ok { s with vertical_crs := s.vertical_crs ++ [n] }) := by
  constructor
  · intro s n h
    exact vertical_crs_datum_check_false h
  · intro s n d hd hda hdc hdep hndep hnocrs huniq harea hcst hcsd hcons
    have hall : ∀ p ∈ vertical_crs_trigger_checks s n, p.1 = false := by
      intro p hp
      simp only [vertical_crs_trigger_checks, List.mem_cons, List.not_mem_nil, or_false] at hp
      rcases hp with rfl | rfl | rfl | rfl | rfl
      · exact huniq
      · exact vertical_crs_datum_check_false hnocrs
      · show (area_deprecated_exists s (some n.area_of_use_auth_name)
          (some n.area_of_use_code) && !n.deprecated) = false
        rw [harea]
        simp
      · show optNeStr (cs_type s (some n.coordinate_system_auth_name)
          (some n.coordinate_system_code)) "vertical" = false
        rw [hcst]
        decide
      · show optNeInt (cs_dimension s (some n.coordinate_system_auth_name)
          (some n.coordinate_system_code)) 1 = false
        rw [hcsd]
        decide
    unfold insert_vertical_crs
    rw [runChecksThen_all_false hall, if_pos hcons]

/-- Witness for C10: the non-deprecated vertical CRS EPSG:5701 referencing the
deprecated vertical datum EPSG:5100 is admitted. -/
theorem c10_witness :
    insert_vertical_crs baseStore vrsNew =
      .ok { baseStore with vertical_crs := baseStore.vertical_crs ++ [vrsNew] } :=
  c10_vertical_datum_rule_misses_datum.2 baseStore vrsNew vdatumDeprecated
    (by decide) rfl rfl rfl rfl (by decide) (by decide) (by decide) (by decide) (by decide)
    (by decide)
